import Mathlib

/-!
Verification of the alert-correlation engine of the alert-manager backend
(`backend/app/services/matching_service.py`, `alert_service.py`,
`grafana_service.py`, `jsm_service.py`, `prometheus_service.py`).

Modelling conventions:
* Python dictionaries become structures with `Option`-valued fields
  (`none` = key absent or value `None`).
* Python floats become exact rationals (`ℚ`).
* Python exceptions become `Except String`.
* The wall clock (`datetime.utcnow()`) is passed explicitly as a parameter
  wherever the code reads it.
* Calls into external libraries (`difflib.SequenceMatcher(...).ratio()`,
  sklearn's TF-IDF cosine similarity) and into the regex-heavy `JSMService`
  feature extractors are passed as explicit function parameters; the theorems
  only assume of them what the libraries guarantee (a similarity in `[0, 1]`).
-/

namespace AlertManager

/-- Python `_safe_str(value)` from `matching_service.py` / `jsm_service.py`,
composed with a `dict.get` that may return `None` or miss the key: `None` and
a missing key both become `""`, a string is returned unchanged. -/
def safe_str (v : Option String) : String := v.getD ""

/-- Python truthiness of an optional string: `None` and `""` are falsy. -/
def truthyStr (v : Option String) : Bool := v.getD "" ≠ ""

/-- Python `a or b` on strings (`b` when `a` is falsy, i.e. empty). -/
def pyOrStr (a b : String) : String := if a = "" then b else a

/-- Lookup in a Python string-to-string dict (e.g. Grafana `labels`),
`d.get(k)`. -/
def dictGet (d : List (String × String)) (k : String) : Option String :=
  (d.find? (fun p => p.1 = k)).map (fun p => p.2)

/-- Naive or timezone-aware `datetime.datetime` value. `tzOffsetMinutes` is
`none` for a naive datetime, `some o` for an aware one with UTC offset `o`
minutes. -/
structure PyDateTime where
  year : Nat
  month : Nat
  day : Nat
  hour : Nat
  minute : Nat
  second : Nat
  microsecond : Nat
  tzOffsetMinutes : Option Int
deriving DecidableEq, Repr

/-- Value found in a timestamp field of a raw alert dict: either still an
ISO string or an already-parsed `datetime` (both occur in the data flow:
`startsAt` is a string from Grafana's API, `started_at` is a `datetime`
produced by `GrafanaService._parse_datetime`). -/
inductive TsVal where
  | str (s : String)
  | dt (d : PyDateTime)
deriving DecidableEq, Repr

/-- Raw/parsed Grafana alert dict, with exactly the keys produced by
`GrafanaService._parse_alert` plus the raw `startsAt` key read by
`AlertMatchingService._parse_grafana_timestamp`. -/
structure GrafanaData where
  alert_id : Option String
  alert_name : Option String
  cluster : Option String
  pod : Option String
  severity : Option String
  summary : Option String
  description : Option String
  startsAt : Option TsVal
  started_at : Option TsVal
  generator_url : Option String
  labels : List (String × String)
  annotations : List (String × String)
deriving DecidableEq, Repr

/-- Fields of a JSM alert payload (either nested under `data` or at top
level); exactly the keys read by `JSMService.get_alert_status_info` and the
matching-service extractors. Non-string tags are skipped by every consumer
(`isinstance(tag, str)` guards), so tags are modelled as strings. -/
structure JsmData where
  id : Option String
  tinyId : Option String
  status : Option String
  acknowledged : Option Bool
  owner : Option String
  priority : Option String
  createdAt : Option String
  jsm_created_at : Option String
  updatedAt : Option String
  lastOccuredAt : Option String
  count : Option Int
  tags : Option (List String)
  «alias» : Option String
  integrationName : Option String
  source : Option String
  message : Option String
  description : Option String
  entity : Option String
deriving DecidableEq, Repr

/-- JSM alert dict as fetched: possibly a nested `data` payload plus the
top-level keys (the code reads `jsm_alert.get('data', jsm_alert)` in some
places and `jsm_alert.get('id')` at top level in others). -/
structure JsmAlert where
  data : Option JsmData
  top : JsmData
deriving DecidableEq, Repr

/-- Python `alert_data = jsm_alert.get('data', jsm_alert)`. -/
def JsmAlert.alertData (a : JsmAlert) : JsmData := a.data.getD a.top

/-- The `component_scores` dict built inside `calculate_match_confidence`,
in insertion order. -/
structure Scores where
  name_similarity : ℚ
  cluster_similarity : ℚ
  severity_similarity : ℚ
  temporal_similarity : ℚ
  content_similarity : ℚ
deriving DecidableEq, Repr

/-- Weights dictionary `self.weights` set in `AlertMatchingService.__init__`
(name 0.40, cluster 0.25, severity 0.15, temporal 0.10, content 0.10). -/
def weights : Scores :=
  { name_similarity := 0.40
    cluster_similarity := 0.25
    severity_similarity := 0.15
    temporal_similarity := 0.10
    content_similarity := 0.10 }

/-- `sum(scores[key] * self.weights[key] for key in scores.keys())` with the
dict's insertion order. -/
def weightedSum (w s : Scores) : ℚ :=
  w.name_similarity * s.name_similarity +
    w.cluster_similarity * s.cluster_similarity +
    w.severity_similarity * s.severity_similarity +
    w.temporal_similarity * s.temporal_similarity +
    w.content_similarity * s.content_similarity

/-- The `details` dict of a scored pair: the `method` entry of each
per-component sub-dict (`none` when that sub-dict carries no `method` key),
plus `component_scores` and `final_confidence`. The remaining entries of the
sub-dicts are free-text explanation payload that no consumer reads. -/
structure PairDetails where
  name_method : Option String
  cluster_method : Option String
  severity_method : Option String
  temporal_method : Option String
  content_method : Option String
  component_scores : Scores
  final_confidence : ℚ
deriving DecidableEq, Repr

/-- `match_details` value: `{}` initially, `{'error': str(e)}` after a caught
scoring exception, or the full details dict of a scored pair. -/
inductive MatchDetails where
  | empty
  | err (msg : String)
  | ok (d : PairDetails)
deriving DecidableEq, Repr

/-- `details.get('name_match', {}).get('method')`. -/
def MatchDetails.nameMethod : MatchDetails → Option String
  | .ok d => d.name_method
  | _ => none

/-- `details.get('cluster_match', {}).get('method')`. -/
def MatchDetails.clusterMethod : MatchDetails → Option String
  | .ok d => d.cluster_method
  | _ => none

/-- One entry of the list returned by `match_grafana_with_jsm`. -/
structure MatchResult where
  grafana_alert : GrafanaData
  jsm_alert : Option JsmAlert
  match_type : String
  match_confidence : ℚ
  match_details : MatchDetails
deriving DecidableEq, Repr

/-- The configuration state of `AlertMatchingService` (thresholds set in
`__init__` from settings; the weights dict is the constant `weights`). -/
structure AlertMatchingService where
  confidence_threshold : ℚ
  high_confidence_threshold : ℚ
  manual_review_threshold : ℚ
deriving DecidableEq, Repr

/-- The default service configuration: `ALERT_MATCH_CONFIDENCE_THRESHOLD =
70.0`, `ALERT_MATCH_HIGH_CONFIDENCE_THRESHOLD = 85.0`,
`ALERT_MATCH_MANUAL_REVIEW_THRESHOLD = 60.0`, each divided by 100. -/
def defaultService : AlertMatchingService :=
  { confidence_threshold := 0.70
    high_confidence_threshold := 0.85
    manual_review_threshold := 0.60 }

namespace AlertMatchingService

/-- `AlertMatchingService._determine_match_type`. -/
def determine_match_type (svc : AlertMatchingService) (confidence : ℚ)
    (details : MatchDetails) : String :=
  if svc.high_confidence_threshold ≤ confidence then "high_confidence"
  else if svc.confidence_threshold ≤ confidence then
    if details.nameMethod = some "exact_match" then "exact_name_match"
    else if details.clusterMethod = some "exact_match" then "cluster_match"
    else "content_similarity"
  else if svc.manual_review_threshold ≤ confidence then "manual_review"
  else "low_confidence"

/-- `self._safe_str(jsm_alert.get('id', ''))` — the string under which a JSM
alert is entered into / looked up in `used_jsm_alerts`. -/
def jsmIdOf (j : JsmAlert) : String := safe_str j.top.id

/-- State of the inner candidate scan of `match_grafana_with_jsm`
(`best_match`, `best_confidence`, `best_details`). -/
structure BestState where
  best_match : Option JsmAlert
  best_confidence : ℚ
  best_details : MatchDetails
deriving DecidableEq, Repr

/-- Inner loop of `match_grafana_with_jsm`: scan the JSM candidates for one
Grafana alert, skipping already-claimed ids, catching scoring exceptions
(`except ...: continue`), and keeping the strictly best candidate at or above
the confidence threshold. `calc` is `self.calculate_match_confidence`, whose
call may raise. -/
def findBestMatch (svc : AlertMatchingService)
    (calcConf : GrafanaData → JsmAlert → Except String (ℚ × MatchDetails))
    (g : GrafanaData) (used : List String) :
    List JsmAlert → BestState → BestState
  | [], st => st
  | j :: rest, st =>
    if jsmIdOf j ∈ used then findBestMatch svc calcConf g used rest st
    else
      match calcConf g j with
      | .error _ => findBestMatch svc calcConf g used rest st
      | .ok (confidence, details) =>
        if st.best_confidence < confidence ∧
            svc.confidence_threshold ≤ confidence then
          findBestMatch svc calcConf g used rest
            ⟨some j, confidence, details⟩
        else findBestMatch svc calcConf g used rest st

/-- The initial `match_info` dict of each iteration
(`jsm_alert = None`, `match_type = 'none'`, `match_confidence = 0.0`,
`match_details = {}`). -/
def noMatchInfo (g : GrafanaData) : MatchResult :=
  { grafana_alert := g
    jsm_alert := none
    match_type := "none"
    match_confidence := 0
    match_details := .empty }

/-- Outer loop of `match_grafana_with_jsm` over the Grafana alerts, threading
the `used_jsm_alerts` set (modelled as a list with membership). -/
def matchLoop (svc : AlertMatchingService)
    (calcConf : GrafanaData → JsmAlert → Except String (ℚ × MatchDetails))
    (jsm_alerts : List JsmAlert) :
    List GrafanaData → List String → List MatchResult
  | [], _ => []
  | g :: gs, used =>
    let st := findBestMatch svc calcConf g used jsm_alerts ⟨none, 0, .empty⟩
    match st.best_match with
    | some bm =>
      { grafana_alert := g
        jsm_alert := some bm
        match_type := svc.determine_match_type st.best_confidence st.best_details
        match_confidence := st.best_confidence
        match_details := st.best_details }
        :: matchLoop svc calcConf jsm_alerts gs (jsmIdOf bm :: used)
    | none => noMatchInfo g :: matchLoop svc calcConf jsm_alerts gs used

/-- `AlertMatchingService.match_grafana_with_jsm`. The confidence computation
`self.calculate_match_confidence` is the explicit parameter `calc` (its
concrete embedding is `calculate_match_confidence` below); `used_jsm_alerts`
starts empty. -/
def match_grafana_with_jsm (svc : AlertMatchingService)
    (calcConf : GrafanaData → JsmAlert → Except String (ℚ × MatchDetails))
    (grafana_alerts : List GrafanaData) (jsm_alerts : List JsmAlert) :
    List MatchResult :=
  matchLoop svc calcConf jsm_alerts grafana_alerts []

end AlertMatchingService

/-! ### Character classes and string helpers (Python `re` / `str` methods)

The regex character classes are modelled over the ASCII range (the alert
names, cluster names and severities handled by the service are ASCII). -/

/-- Regex `\w`: a word character (letter, digit or underscore). -/
def isWordChar (c : Char) : Bool := c.isAlphanum || c = '_'

/-- Regex `\s` / `str.strip()` whitespace. -/
def isPySpaceChar (c : Char) : Bool :=
  c = ' ' || c = '\t' || c = '\n' || c = '\r' || c = '\x0b' || c = '\x0c'

/-- Character class `[:\s]` used by the prefix/suffix strippers of
`_normalize_alert_name`. -/
def isColonSpace (c : Char) : Bool := c = ':' || isPySpaceChar c

/-- Python `str.lower()` (ASCII model). -/
def pyLower (s : String) : String := String.mk (s.data.map Char.toLower)

/-- Python `str.strip()`. -/
def pyStrip (s : String) : String :=
  String.mk (((s.data.dropWhile isPySpaceChar).reverse.dropWhile
    isPySpaceChar).reverse)

/-- Python substring test `a in b`. -/
def pyInStr (a b : String) : Bool := decide (a.data <:+: b.data)

/-- Replace every occurrence of the character `c` by `rep`
(`str.replace` for a one-character pattern — every replacement in the
services replaces the single character `'Z'` by `'+00:00'`). -/
def replaceChar (c : Char) (rep : List Char) : List Char → List Char
  | [] => []
  | x :: rest =>
    if x = c then rep ++ replaceChar c rep rest
    else x :: replaceChar c rep rest

/-- `date_str.replace('Z', '+00:00')`. -/
def pyReplaceZ (s : String) : String :=
  String.mk (replaceChar 'Z' ("+00:00").data s.data)

/-- Python `s.endswith(suffix)`. -/
def pyEndsWith (s suffix : String) : Bool := suffix.data.isSuffixOf s.data

/-- Python `s.split(sep)` for a one-character separator (keeps empty
pieces). -/
def splitOnCharAux (c : Char) : List Char → List Char → List (List Char)
  | [], acc => [acc.reverse]
  | x :: rest, acc =>
    if x = c then acc.reverse :: splitOnCharAux c rest []
    else splitOnCharAux c rest (x :: acc)

/-- Python `s.split(sep)` for a one-character separator. -/
def pySplitChar (c : Char) (s : String) : List String :=
  (splitOnCharAux c s.data []).map String.mk

/-- Split a character list at the characters satisfying `p`, dropping empty
pieces (the common core of `str.split()` and `re.findall(r'\b\w+\b', ·)`). -/
def splitDropAux (p : Char → Bool) : List Char → List Char → List (List Char)
  | [], acc => if acc.isEmpty then [] else [acc.reverse]
  | c :: rest, acc =>
    if p c then
      if acc.isEmpty then splitDropAux p rest []
      else acc.reverse :: splitDropAux p rest []
    else splitDropAux p rest (c :: acc)

/-- Python `s.split()` (split on whitespace runs, no empty pieces). -/
def pySplit (s : String) : List String :=
  (splitDropAux isPySpaceChar s.data []).map String.mk

/-- `re.findall(r'\b\w+\b', s.lower())` as a set of words. -/
def wordSet (s : String) : Finset String :=
  ((splitDropAux (fun c => !isWordChar c) (pyLower s).data []).map
    String.mk).toFinset

/-! ### `AlertMatchingService._normalize_alert_name` -/

/-- Characters kept by `re.sub(r'[^\w\s-]', '', ·)`. -/
def keepChar (c : Char) : Bool := isWordChar c || isPySpaceChar c || c = '-'

/-- One pass of `re.sub(r'\s+', ' ', ·)`: collapse every whitespace run to a
single `' '`. The flag records whether the previous character was part of a
whitespace run. -/
def collapseWsAux : Bool → List Char → List Char
  | _, [] => []
  | prevWs, c :: rest =>
    if isPySpaceChar c then
      if prevWs then collapseWsAux true rest
      else ' ' :: collapseWsAux true rest
    else c :: collapseWsAux false rest

/-- `re.sub(r'\s+', ' ', ·).strip()` on character lists. -/
def collapseWs (l : List Char) : List Char :=
  ((collapseWsAux false l).dropWhile isPySpaceChar).reverse.dropWhile
    isPySpaceChar |>.reverse

/-- The alternation `(alert|rule|notification)` of `_normalize_alert_name`,
in regex order. No token is a prefix or suffix of another (their first and
last characters are pairwise distinct), so at most one can match. -/
def kwTokens : List (List Char) := ["alert".data, "rule".data, "notification".data]

/-- `re.sub(r'^(alert|rule|notification)[:\s]*', '', ·)`: the pattern is
anchored, so it removes at most one leading token together with the maximal
following run of `[:\s]` characters. -/
def stripLeadingToken (l : List Char) : List Char :=
  match kwTokens.find? (fun kw => kw.isPrefixOf l) with
  | some kw => (l.drop kw.length).dropWhile isColonSpace
  | none => l

/-- `re.sub(r'[:\s]*(alert|rule|notification)$', '', ·)`: the pattern must
end at the end of the string, so the leftmost match removes at most one
trailing token together with the maximal preceding run of `[:\s]`
characters. -/
def stripTrailingToken (l : List Char) : List Char :=
  match kwTokens.find? (fun kw => kw.isSuffixOf l) with
  | some kw =>
    ((l.take (l.length - kw.length)).reverse.dropWhile isColonSpace).reverse
  | none => l

/-- `AlertMatchingService._normalize_alert_name`: lowercase, drop characters
outside `[\w\s-]`, collapse and strip whitespace, then strip one leading and
one trailing `alert|rule|notification` token. -/
def normalize_alert_name (name : String) : String :=
  if name = "" then ""
  else
    String.mk (stripTrailingToken (stripLeadingToken (collapseWs
      ((name.data.map Char.toLower).filter keepChar))))

/-! ### `datetime.fromisoformat` and the timestamp parsers -/

/-- Numeric value of a digit string. -/
def digitsVal (cs : List Char) : Nat :=
  cs.foldl (fun a c => 10 * a + (c.toNat - 48)) 0

/-- All characters are ASCII digits. -/
def allDigits (cs : List Char) : Bool := cs.all Char.isDigit

/-- Leap year test of the Gregorian calendar (`calendar.isleap`). -/
def isLeapYear (y : Nat) : Bool := y % 4 = 0 && (y % 100 ≠ 0 || y % 400 = 0)

/-- Number of days in a month. -/
def daysInMonth (y m : Nat) : Nat :=
  if m = 2 then (if isLeapYear y then 29 else 28)
  else if m = 4 || m = 6 || m = 9 || m = 11 then 30
  else 31

/-- Parse the trailing UTC-offset part `±HH:MM` of an ISO string (the whole
remainder must be consumed); an empty remainder means a naive datetime. -/
def parseOffsetPart : List Char → Option (Option Int)
  | [] => some none
  | sign :: rest =>
    if sign = '+' || sign = '-' then
      match rest with
      | [h1, h2, ':', m1, m2] =>
        if allDigits [h1, h2] && allDigits [m1, m2] then
          let h := digitsVal [h1, h2]
          let m := digitsVal [m1, m2]
          if h < 24 && m < 60 then
            some (some ((if sign = '-' then -1 else 1) * (h * 60 + m : Nat)))
          else none
        else none
      | _ => none
    else none

/-- Parse an optional fractional-seconds part `.f{1,6}`, scaled to
microseconds; returns the unconsumed remainder. -/
def parseFracPart : List Char → Option (Nat × List Char)
  | '.' :: rest =>
    let ds := rest.takeWhile Char.isDigit
    let rest2 := rest.dropWhile Char.isDigit
    if 1 ≤ ds.length && ds.length ≤ 6 then
      some (digitsVal ds * 10 ^ (6 - ds.length), rest2)
    else none
  | rest => some (0, rest)

/-- Parse the time-of-day part `HH:MM[:SS[.ffffff]][±HH:MM]` of an ISO
string. -/
def parseTimePart (cs : List Char) :
    Option (Nat × Nat × Nat × Nat × Option Int) :=
  match cs with
  | h1 :: h2 :: ':' :: mi1 :: mi2 :: rest =>
    if allDigits [h1, h2, mi1, mi2] then
      let hh := digitsVal [h1, h2]
      let mm := digitsVal [mi1, mi2]
      match rest with
      | ':' :: s1 :: s2 :: rest2 =>
        if allDigits [s1, s2] then
          match parseFracPart rest2 with
          | some (us, rest3) =>
            (parseOffsetPart rest3).map
              (fun tz => (hh, mm, digitsVal [s1, s2], us, tz))
          | none => none
        else none
      | _ => (parseOffsetPart rest).map (fun tz => (hh, mm, 0, 0, tz))
    else none
  | _ => none

/-- `datetime.fromisoformat`: `YYYY-MM-DD[<sep>HH:MM[:SS[.ffffff]][±HH:MM]]`
with field validation; `none` models the `ValueError` raised on any other
input. -/
def fromisoformat (s : String) : Option PyDateTime :=
  match s.data with
  | y1 :: y2 :: y3 :: y4 :: '-' :: m1 :: m2 :: '-' :: d1 :: d2 :: rest =>
    if allDigits [y1, y2, y3, y4, m1, m2, d1, d2] then
      let y := digitsVal [y1, y2, y3, y4]
      let mo := digitsVal [m1, m2]
      let d := digitsVal [d1, d2]
      if 1 ≤ y && 1 ≤ mo && mo ≤ 12 && 1 ≤ d && d ≤ daysInMonth y mo then
        match rest with
        | [] => some ⟨y, mo, d, 0, 0, 0, 0, none⟩
        | _sep :: timeRest =>
          match parseTimePart timeRest with
          | some (hh, mm, ss, us, tz) =>
            if hh ≤ 23 && mm ≤ 59 && ss ≤ 59 then
              some ⟨y, mo, d, hh, mm, ss, us, tz⟩
            else none
          | none => none
      else none
    else none
  | _ => none

/-- Python truthiness of an optional timestamp value (`None` and `''` are
falsy, a `datetime` is truthy). -/
def tsTruthy : Option TsVal → Bool
  | none => false
  | some (.str s) => s ≠ ""
  | some (.dt _) => true

/-- Python `a or b` on optional timestamp values. -/
def pyOrTs (a b : Option TsVal) : Option TsVal := if tsTruthy a then a else b

/-- Python `a or b` on optional strings (`None` and `''` are falsy). -/
def pyOrOptStr (a b : Option String) : Option String :=
  if truthyStr a then a else b

namespace AlertMatchingService

/-- `AlertMatchingService._parse_grafana_timestamp`: read
`alert.get('startsAt') or alert.get('started_at')`; on a string, rewrite a
trailing `'Z'` to `'+00:00'` and parse it, returning `None` (not the current
time) when parsing raises; pass a `datetime` value through. -/
def parse_grafana_timestamp (alert : GrafanaData) : Option PyDateTime :=
  let ts := pyOrTs alert.startsAt alert.started_at
  if !tsTruthy ts then none
  else
    match ts with
    | some (.str s) =>
      fromisoformat (if pyEndsWith s "Z" then
        String.mk (s.data.dropLast ++ ("+00:00").data) else s)
    | some (.dt d) => some d
    | none => none

/-- `AlertMatchingService._parse_jsm_timestamp`: read
`alert_data.get('createdAt') or alert_data.get('jsm_created_at')` from the
nested-or-top payload; same trailing-`'Z'` handling, `None` on failure. The
JSM payload carries its timestamps as JSON strings, so only the string
branch of the Python code is reachable. -/
def parse_jsm_timestamp (alert : JsmAlert) : Option PyDateTime :=
  let dat := alert.alertData
  match pyOrOptStr dat.createdAt dat.jsm_created_at with
  | none => none
  | some s =>
    if s = "" then none
    else
      fromisoformat (if pyEndsWith s "Z" then
        String.mk (s.data.dropLast ++ ("+00:00").data) else s)

end AlertMatchingService

/-! ### `datetime` arithmetic (`abs((a - b).total_seconds())`) -/

/-- Days before January 1st of year `y` in the proleptic Gregorian calendar
(`datetime.toordinal` minus one, for day 1-1 of the year). -/
def daysBeforeYear (y : Nat) : Nat :=
  (y - 1) * 365 + (y - 1) / 4 - (y - 1) / 100 + (y - 1) / 400

/-- Days before the first of month `m` within a year. -/
def daysBeforeMonth (y m : Nat) : Nat :=
  ([31, 28, 31, 30, 31, 30, 31, 31, 30, 31, 30].take (m - 1)).sum +
    (if 2 < m && isLeapYear y then 1 else 0)

/-- Seconds (with fractional microseconds) of a datetime ignoring its
timezone, measured from the calendar origin. -/
def PyDateTime.naiveSeconds (d : PyDateTime) : ℚ :=
  ((daysBeforeYear d.year + daysBeforeMonth d.year d.month + (d.day - 1)) *
      86400 + d.hour * 3600 + d.minute * 60 + d.second : ℕ)
    + (d.microsecond : ℚ) / 1000000

/-- Python datetime subtraction in seconds, `(a - b).total_seconds()`:
naive minus naive or aware minus aware works, mixing them raises
`TypeError`. -/
def PyDateTime.subSeconds (a b : PyDateTime) : Except String ℚ :=
  match a.tzOffsetMinutes, b.tzOffsetMinutes with
  | none, none => .ok (a.naiveSeconds - b.naiveSeconds)
  | some oa, some ob =>
    .ok ((a.naiveSeconds - oa * 60) - (b.naiveSeconds - ob * 60))
  | _, _ => .error "cannot subtract offset-naive and offset-aware datetimes"

/-! ### Similarity oracles

External code invoked by the scorers, passed as explicit functions:
`difflib.SequenceMatcher(None, a, b).ratio()` and the sklearn TF-IDF cosine
similarity (absent when sklearn is unavailable or the vectorizer failed to
initialize), plus the three regex-based `JSMService` feature extractors.
An `Except.error` result models the call raising an exception. -/
structure SimOracles where
  ratio : String → String → Except String ℚ
  tfidf_cosine : Option (String → String → Except String ℚ)
  jsm_alert_name : JsmAlert → Option String
  jsm_cluster : JsmAlert → Option String
  jsm_severity : JsmAlert → Option String

namespace AlertMatchingService

/-! ### Feature extraction helpers of `matching_service.py` -/

/-- `AlertMatchingService._extract_grafana_alert_name`:
`alert.get('labels', {}).get('alertname', '') or alert.get('alert_name', '')`. -/
def extract_grafana_alert_name (a : GrafanaData) : String :=
  pyOrStr (safe_str (dictGet a.labels "alertname")) (safe_str a.alert_name)

/-- `AlertMatchingService._extract_grafana_cluster`:
`labels.get('cluster', '') or labels.get('instance', '')`. -/
def extract_grafana_cluster (a : GrafanaData) : String :=
  pyOrStr (safe_str (dictGet a.labels "cluster"))
    (safe_str (dictGet a.labels "instance"))

/-- `AlertMatchingService._extract_grafana_severity`:
`alert.get('labels', {}).get('severity', 'info')`. -/
def extract_grafana_severity (a : GrafanaData) : String :=
  (dictGet a.labels "severity").getD "info"

/-- `AlertMatchingService._extract_jsm_alert_name`:
`jsm_service.extract_alert_name_from_jsm(alert) or ''`. -/
def extract_jsm_alert_name (sim : SimOracles) (a : JsmAlert) : String :=
  (sim.jsm_alert_name a).getD ""

/-- `AlertMatchingService._extract_jsm_cluster`:
`jsm_service.extract_cluster_from_jsm(alert) or ''`. -/
def extract_jsm_cluster (sim : SimOracles) (a : JsmAlert) : String :=
  (sim.jsm_cluster a).getD ""

/-- `AlertMatchingService._extract_jsm_severity`:
`jsm_service.extract_severity_from_jsm(alert) or 'info'`. -/
def extract_jsm_severity (sim : SimOracles) (a : JsmAlert) : String :=
  pyOrStr ((sim.jsm_severity a).getD "") "info"

/-- `AlertMatchingService._extract_grafana_text`: alertname label, non-blank
annotation values, and the summary field, space-joined. -/
def extract_grafana_text (a : GrafanaData) : String :=
  let p1 := match dictGet a.labels "alertname" with
    | some v => [v]
    | none => []
  let p2 := a.annotations.filterMap
    (fun p => if pyStrip p.2 ≠ "" then some p.2 else none)
  let p3 := match a.summary with
    | some v => [v]
    | none => []
  String.intercalate " " (p1 ++ p2 ++ p3)

/-- `AlertMatchingService._extract_jsm_text`: message, description and the
tags not containing `ip:`, `id:` or `uuid:`, space-joined (empty parts are
dropped by the final `if part` filter). -/
def extract_jsm_text (a : JsmAlert) : String :=
  let dat := a.alertData
  let message := safe_str dat.message
  let descr := safe_str dat.description
  let tags := (dat.tags.getD []).filter (fun t =>
    !(pyInStr "ip:" (pyLower t) || pyInStr "id:" (pyLower t) ||
      pyInStr "uuid:" (pyLower t)))
  let parts := (if message ≠ "" then [message] else []) ++
    (if descr ≠ "" then [descr] else []) ++ tags
  String.intercalate " " (parts.filter (fun p => p ≠ ""))

/-! ### The five similarity scorers

Each returns its score together with the `method` tag of its explanation
dict (the key inspected by `_determine_match_type`). -/

/-- The word-set Jaccard ratio computed inside `_calculate_name_similarity`
(`jaccard_ratio` starts at `0.0` and is only computed when both word sets
are non-empty; the code further guards the division by `if union`). -/
def jaccardRatio (gw jw : Finset String) : ℚ :=
  if gw.Nonempty ∧ jw.Nonempty then
    (if (gw ∪ jw).Nonempty then
      ((gw ∩ jw).card : ℚ) / ((gw ∪ jw).card : ℚ)
    else 0)
  else 0

/-- `AlertMatchingService._calculate_name_similarity`. -/
def calculate_name_similarity (ratio : String → String → Except String ℚ)
    (grafana_name jsm_name : String) : Except String (ℚ × String) :=
  if grafana_name = "" || jsm_name = "" then .ok (0, "missing_names")
  else if normalize_alert_name grafana_name = normalize_alert_name jsm_name
    then .ok (1, "exact_match")
  else if pyInStr (normalize_alert_name grafana_name)
      (normalize_alert_name jsm_name) ||
      pyInStr (normalize_alert_name jsm_name)
        (normalize_alert_name grafana_name) then
    .ok (0.90, "substring_match")
  else
    (ratio (normalize_alert_name grafana_name)
      (normalize_alert_name jsm_name)).bind fun sequence_ratio =>
      .ok (max sequence_ratio
          (jaccardRatio (pySplit (normalize_alert_name grafana_name)).toFinset
            (pySplit (normalize_alert_name jsm_name)).toFinset),
        if jaccardRatio (pySplit (normalize_alert_name grafana_name)).toFinset
            (pySplit (normalize_alert_name jsm_name)).toFinset <
            sequence_ratio then "sequence_match"
        else "jaccard_similarity")

/-- `AlertMatchingService._calculate_cluster_similarity`. -/
def calculate_cluster_similarity (ratio : String → String → Except String ℚ)
    (grafana_cluster jsm_cluster : String) : Except String (ℚ × String) :=
  if jsm_cluster = "" then .ok (0.5, "no_jsm_cluster")
  else if grafana_cluster = "" then .ok (0.3, "no_grafana_cluster")
  else if pyLower grafana_cluster = pyLower jsm_cluster then
    .ok (1, "exact_match")
  else if pyInStr (pyLower grafana_cluster) (pyLower jsm_cluster) ||
      pyInStr (pyLower jsm_cluster) (pyLower grafana_cluster) then
    .ok (0.85, "substring_match")
  else
    (ratio (pyLower grafana_cluster) (pyLower jsm_cluster)).bind fun r =>
      .ok (r, "sequence_similarity")

/-- The `severity_groups` dict of `_calculate_severity_similarity`, in
insertion order. -/
def severityGroups : List (String × List String) :=
  [("critical", ["critical", "crit", "p1", "high"]),
   ("warning", ["warning", "warn", "p2", "medium"]),
   ("info", ["info", "information", "p3", "p5", "low"]),
   ("low", ["low", "minor", "p4"])]

/-- The group-classification loop of `_calculate_severity_similarity`: the
loop does not break, so the last matching group wins (`'low'` is listed both
under `info` and under `low`, and classifies as `low`). -/
def severityGroupOf (s : String) : Option String :=
  severityGroups.foldl
    (fun acc p => if s ∈ p.2 then some p.1 else acc) none

/-- Core of `_calculate_severity_similarity` on the already-normalized
severities. -/
def severityScore (gn jn : String) : ℚ × String :=
  if gn = jn then (1, "exact_match")
  else
    match severityGroupOf gn, severityGroupOf jn with
    | some g1, some g2 =>
      if g1 = g2 then (1, "group_match") else (0.3, "different_groups")
    | _, _ => (0.5, "unknown_mapping")

/-- `AlertMatchingService._calculate_severity_similarity`: normalize
(lowercase, falsy becomes `'info'`), then compare directly or by severity
group. -/
def calculate_severity_similarity (grafana_severity jsm_severity : String) :
    ℚ × String :=
  severityScore
    (if grafana_severity = "" then "info" else pyLower grafana_severity)
    (if jsm_severity = "" then "info" else pyLower jsm_severity)

/-- The time-window step function of `_calculate_temporal_similarity`
(`time_diff` in minutes). -/
def timeDiffScore (time_diff : ℚ) : ℚ × String :=
  (if time_diff ≤ 2 then 1
    else if time_diff ≤ 5 then 0.9
    else if time_diff ≤ 15 then 0.7
    else if time_diff ≤ 30 then 0.5
    else if time_diff ≤ 60 then 0.3
    else 0.1, "time_proximity")

/-- `AlertMatchingService._calculate_temporal_similarity`: parse both
timestamps, neutral `0.5` when either is missing, step function of the
absolute difference in minutes otherwise; a `TypeError` from subtracting a
naive and an aware datetime is caught by the scorer's own `except` and also
yields `0.5`. -/
def calculate_temporal_similarity (g : GrafanaData) (j : JsmAlert) :
    ℚ × String :=
  match parse_grafana_timestamp g, parse_jsm_timestamp j with
  | some gt, some jt =>
    match PyDateTime.subSeconds gt jt with
    | .error _ => (0.5, "error")
    | .ok secs => timeDiffScore (|secs| / 60)
  | _, _ => (0.5, "missing_timestamps")

/-- `AlertMatchingService._calculate_content_similarity`: TF-IDF cosine when
the vectorizer is available and does not raise (a raise falls back, with a
warning, to the word-overlap path); otherwise Jaccard over word sets;
neutral `0.5` on missing content. -/
def calculate_content_similarity
    (tfidf_cosine : Option (String → String → Except String ℚ))
    (g : GrafanaData) (j : JsmAlert) : ℚ × String :=
  if extract_grafana_text g = "" || extract_jsm_text j = "" then
    (0.5, "missing_content")
  else
    match
      (match tfidf_cosine with
        | some f =>
          (match f (extract_grafana_text g) (extract_jsm_text j) with
            | .ok v => some v
            | .error _ => none)
        | none => none) with
    | some v => (v, "tfidf_cosine")
    | none =>
      if (wordSet (extract_grafana_text g)).Nonempty ∧
          (wordSet (extract_jsm_text j)).Nonempty then
        (((wordSet (extract_grafana_text g) ∩
            wordSet (extract_jsm_text j)).card : ℚ) /
          ((wordSet (extract_grafana_text g) ∪
            wordSet (extract_jsm_text j)).card : ℚ), "word_overlap")
      else (0.3, "no_words_found")

/-- Body of `calculate_match_confidence` inside its `try`: the five
component scores, their details, and the weighted confidence sum. An
uncaught exception from a scorer (i.e. from the `ratio` library call inside
the name or cluster scorer) propagates. -/
def calcBody (sim : SimOracles) (g : GrafanaData) (j : JsmAlert) :
    Except String (ℚ × MatchDetails) := do
  let grafana_name := extract_grafana_alert_name g
  let jsm_name := extract_jsm_alert_name sim j
  let nameRes : ℚ × Option String ←
    if grafana_name ≠ "" ∧ jsm_name ≠ "" then do
      let r ← calculate_name_similarity sim.ratio grafana_name jsm_name
      pure (r.1, some r.2)
    else
      pure (0, none)
  let clusterRes ← calculate_cluster_similarity sim.ratio
    (extract_grafana_cluster g) (extract_jsm_cluster sim j)
  let sevRes := calculate_severity_similarity (extract_grafana_severity g)
    (extract_jsm_severity sim j)
  let tempRes := calculate_temporal_similarity g j
  let contRes := calculate_content_similarity sim.tfidf_cosine g j
  let scores : Scores :=
    ⟨nameRes.1, clusterRes.1, sevRes.1, tempRes.1, contRes.1⟩
  let confidence := weightedSum weights scores
  pure (confidence,
    .ok ⟨nameRes.2, some clusterRes.2, some sevRes.2, some tempRes.2,
      some contRes.2, scores, confidence⟩)

/-- `AlertMatchingService.calculate_match_confidence`: the whole computation
runs inside `try`; any exception is caught and converted to confidence `0.0`
with an `{'error': str(e)}` details dict. -/
def calculate_match_confidence (sim : SimOracles) (g : GrafanaData)
    (j : JsmAlert) : ℚ × MatchDetails :=
  match calcBody sim g j with
  | .ok r => r
  | .error e => (0, .err e)

end AlertMatchingService

/-! ### Ingest-side timestamp parsing (`grafana_service.py`,
`prometheus_service.py`) -/

namespace GrafanaService

/-- `GrafanaService._parse_datetime`: missing input or a parse failure falls
back to the current time (`datetime.utcnow()`, the explicit `now`
parameter); every `'Z'` is replaced by `'+00:00'` before parsing; no
fractional-digit truncation is performed. -/
def parse_datetime (now : PyDateTime) (date_str : Option String) :
    PyDateTime :=
  match date_str with
  | none => now
  | some s =>
    if s = "" then now
    else
      match fromisoformat (pyReplaceZ s) with
      | some d => d
      | none => now

end GrafanaService

namespace PrometheusService

/-- The nanosecond-handling preprocessing step of
`PrometheusService._parse_datetime`: when the string contains both `'.'` and
`'Z'` and splits on `'.'` into exactly two parts, the fractional part
(with trailing `'Z'`s stripped) is truncated to its first 6 digits and
right-padded with `'0'` to 6 characters. -/
def preprocessNanos (date_str : String) : String :=
  if date_str.data.contains '.' && date_str.data.contains 'Z' then
    match pySplitChar '.' date_str with
    | [datePart, fracPart] =>
      let nanos := String.mk (fracPart.data.reverse.dropWhile
        (fun c => c = 'Z')).reverse
      let micro := String.mk
        ((nanos.data.take 6) ++ List.replicate (6 - nanos.length) '0')
      datePart ++ "." ++ micro ++ "Z"
    | _ => date_str
  else date_str

/-- `PrometheusService._parse_datetime`: the preprocessing above, then
`'Z'`-to-`'+00:00'` replacement and `fromisoformat`, falling back to the
current time on missing input or parse failure. -/
def parse_datetime (now : PyDateTime) (date_str : Option String) :
    PyDateTime :=
  match date_str with
  | none => now
  | some s =>
    if s = "" then now
    else
      match fromisoformat (pyReplaceZ (preprocessNanos s)) with
      | some d => d
      | none => now

end PrometheusService

/-! ### The persisted correlation record (`models/alert.py`) and the
reconciliation pass (`alert_service.py`) -/

/-- The `Alert` ORM row (`models/alert.py`), restricted to the columns the
services read or write. Nullable columns are `Option`; JSON list columns
default to `[]`. -/
structure Alert where
  alert_id : Option String
  alert_name : Option String
  cluster : Option String
  pod : Option String
  severity : Option String
  summary : Option String
  description : Option String
  started_at : Option TsVal
  generator_url : Option String
  grafana_status : Option String
  labels : List (String × String)
  annotations : List (String × String)
  jsm_alert_id : Option String
  jsm_tiny_id : Option String
  jsm_status : Option String
  jsm_acknowledged : Bool
  jsm_owner : Option String
  jsm_priority : Option String
  jsm_alias : Option String
  jsm_integration_name : Option String
  jsm_source : Option String
  jsm_count : Int
  jsm_tags : List String
  jsm_last_occurred_at : Option PyDateTime
  jsm_created_at : Option PyDateTime
  jsm_updated_at : Option PyDateTime
  match_type : Option String
  match_confidence : Option ℚ
  acknowledged_by : Option String
  acknowledged_at : Option PyDateTime
  resolved_by : Option String
  resolved_at : Option PyDateTime
  jira_status : Option String
  jira_assignee : Option String
  created_at : Option PyDateTime
  updated_at : Option PyDateTime
deriving DecidableEq, Repr

/-- A fresh `Alert()` row with the model's column defaults
(`jsm_acknowledged=False`, `jsm_count=1`, `jira_status="open"`, everything
else empty). -/
def Alert.new : Alert :=
  { alert_id := none, alert_name := none, cluster := none, pod := none
    severity := none, summary := none, description := none
    started_at := none, generator_url := none, grafana_status := none
    labels := [], annotations := []
    jsm_alert_id := none, jsm_tiny_id := none, jsm_status := none
    jsm_acknowledged := false, jsm_owner := none, jsm_priority := none
    jsm_alias := none, jsm_integration_name := none, jsm_source := none
    jsm_count := 1, jsm_tags := [], jsm_last_occurred_at := none
    jsm_created_at := none, jsm_updated_at := none
    match_type := none, match_confidence := none
    acknowledged_by := none, acknowledged_at := none
    resolved_by := none, resolved_at := none
    jira_status := some "open", jira_assignee := none
    created_at := none, updated_at := none }

/-- `_safe_str(x) or None`: empty results become `None`. -/
def strOrNone (s : String) : Option String := if s = "" then none else some s

/-- The dict returned by `JSMService.get_alert_status_info`. -/
structure JsmStatusInfo where
  id : String
  tiny_id : String
  status : String
  acknowledged : Bool
  owner : Option String
  priority : Option String
  created_at : Option String
  updated_at : Option String
  last_occurred_at : Option String
  count : Int
  tags : List String
  «alias» : Option String
  integration_name : Option String
  source : Option String
  message : String
deriving DecidableEq, Repr

namespace JSMService

/-- `JSMService.get_alert_status_info`: extract the status fields from the
nested-or-top payload, `_safe_str`-ing strings and `or None`-ing the
optional ones. -/
def get_alert_status_info (jsm_alert : JsmAlert) : JsmStatusInfo :=
  let dat := jsm_alert.alertData
  { id := safe_str dat.id
    tiny_id := safe_str dat.tinyId
    status := safe_str dat.status
    acknowledged := dat.acknowledged.getD false
    owner := strOrNone (safe_str dat.owner)
    priority := strOrNone (safe_str dat.priority)
    created_at := strOrNone (safe_str dat.createdAt)
    updated_at := strOrNone (safe_str dat.updatedAt)
    last_occurred_at := strOrNone (safe_str dat.lastOccuredAt)
    count := dat.count.getD 1
    tags := dat.tags.getD []
    «alias» := strOrNone (safe_str dat.alias)
    integration_name := strOrNone (safe_str dat.integrationName)
    source := strOrNone (safe_str dat.source)
    message := safe_str dat.message }

end JSMService

/-- The `match_info` entries read by `_update_jsm_fields`
(`match_info['match_type']`, `match_info['match_confidence']`). -/
structure MatchMeta where
  match_type : String
  match_confidence : ℚ
deriving DecidableEq, Repr

namespace AlertService

/-- `AlertService._map_jsm_to_jira_status`. -/
def map_jsm_to_jira_status (jsm_status : String) : String :=
  if jsm_status = "open" then "open"
  else if jsm_status = "acked" then "acknowledged"
  else if jsm_status = "closed" then "resolved"
  else "open"

/-- Third statement of the timestamp `try` block of `_update_jsm_fields`
(`jsm_last_occurred_at`). -/
def updTsLastOccurred (a : Alert) (info : JsmStatusInfo) : Alert :=
  match info.last_occurred_at with
  | none => a
  | some s =>
    match fromisoformat (pyReplaceZ s) with
    | none => a
    | some d => { a with jsm_last_occurred_at := some d }

/-- Second statement of the timestamp `try` block (`jsm_updated_at`); a
`ValueError` here is caught and the remaining statement is skipped. -/
def updTsUpdated (a : Alert) (info : JsmStatusInfo) : Alert :=
  match info.updated_at with
  | none => updTsLastOccurred a info
  | some s =>
    match fromisoformat (pyReplaceZ s) with
    | none => a
    | some d => updTsLastOccurred { a with jsm_updated_at := some d } info

/-- First statement of the timestamp `try` block (`jsm_created_at`); a
`ValueError` here is caught and the remaining statements are skipped. -/
def updTsCreated (a : Alert) (info : JsmStatusInfo) : Alert :=
  match info.created_at with
  | none => updTsUpdated a info
  | some s =>
    match fromisoformat (pyReplaceZ s) with
    | none => a
    | some d => updTsUpdated { a with jsm_created_at := some d } info

/-- `AlertService._update_jsm_fields`: copy the JSM status snapshot and the
match metadata onto the record, parse the JSM timestamps (partial on a
caught `ValueError`), refresh the legacy Jira fields, and stamp
`acknowledged_by`/`acknowledged_at` from JSM only when JSM shows the alert
acknowledged and no acknowledger is recorded yet. -/
def update_jsm_fields (now : PyDateTime) (alert : Alert)
    (jsm_data : JsmAlert) (match_info : MatchMeta) : Alert :=
  let info := JSMService.get_alert_status_info jsm_data
  let a := { alert with
    jsm_alert_id := some info.id
    jsm_tiny_id := some info.tiny_id
    jsm_status := some info.status
    jsm_acknowledged := info.acknowledged
    jsm_owner := info.owner
    jsm_priority := info.priority
    jsm_alias := info.alias
    jsm_integration_name := info.integration_name
    jsm_source := info.source
    jsm_count := info.count
    jsm_tags := info.tags
    match_type := some match_info.match_type
    match_confidence := some match_info.match_confidence }
  let a := updTsCreated a info
  let a := { a with
    jira_status := some (map_jsm_to_jira_status info.status)
    jira_assignee := info.owner }
  if info.acknowledged && !truthyStr a.acknowledged_by then
    { a with
      acknowledged_by := some (pyOrStr (info.owner.getD "") "JSM User")
      acknowledged_at := some (a.jsm_updated_at.getD now) }
  else a

/-- `AlertService._update_existing_alert`: mark the Grafana side active,
copy every field of the parsed Grafana dict that is also a column (the loop
excludes `id`, `created_at` and `alert_id`), then either refresh the JSM
side from the match or — when no match was found this cycle — clear
`jsm_alert_id` and `jsm_status` and set `match_type='none'`,
`match_confidence=0`. -/
def update_existing_alert (now : PyDateTime) (alert : Alert)
    (grafana_data : GrafanaData) (jsm_data : Option JsmAlert)
    (match_info : MatchMeta) : Alert :=
  let a := { alert with
    grafana_status := some "active"
    updated_at := some now
    alert_name := grafana_data.alert_name
    cluster := grafana_data.cluster
    pod := grafana_data.pod
    severity := grafana_data.severity
    summary := grafana_data.summary
    description := grafana_data.description
    started_at := grafana_data.started_at
    generator_url := grafana_data.generator_url
    labels := grafana_data.labels
    annotations := grafana_data.annotations }
  match jsm_data with
  | some j => update_jsm_fields now a j match_info
  | none =>
    { a with
      jsm_alert_id := none
      jsm_status := none
      match_type := some "none"
      match_confidence := some 0 }

/-- `AlertService._create_jsm_only_alert`: no-op without a truthy id,
otherwise append a fresh record keyed `jsm-only-<id>` carrying the JSM
snapshot with `match_type='jsm_only'`, confidence `0`. `extractName` is
`JSMService.extract_alert_name_from_jsm`. -/
def create_jsm_only_alert (extractName : JsmAlert → Option String)
    (now : PyDateTime) (db : List Alert) (jsm_data : JsmAlert) :
    List Alert :=
  if !truthyStr jsm_data.top.id then db
  else
    let jsm_id := jsm_data.top.id.getD ""
    let info := JSMService.get_alert_status_info jsm_data
    let alert_name := pyOrStr ((extractName jsm_data).getD "") info.message
    let base := { Alert.new with
      alert_id := some ("jsm-only-" ++ jsm_id)
      alert_name := some alert_name
      summary := some info.message
      grafana_status := some "N/A"
      created_at := some now
      updated_at := some now }
    db ++ [update_jsm_fields now base jsm_data ⟨"jsm_only", 0⟩]

/-- Update the first record satisfying `p` in place (the ORM mutates the
single row returned by `.first()`). -/
def updateFirst (p : Alert → Bool) (f : Alert → Alert) :
    List Alert → List Alert
  | [] => []
  | a :: rest => if p a then f a :: rest else a :: updateFirst p f rest

/-- The unmatched-JSM loop of `AlertService.sync_alerts` (the block after
the per-match processing): for every JSM alert whose truthy id was not
processed as a match, refresh the first record already carrying that
`jsm_alert_id`, or create a `jsm-only-<id>` record when there is none.
JSM alerts without a truthy id are skipped. -/
def process_unmatched_jsm (extractName : JsmAlert → Option String)
    (now : PyDateTime) (processed : List String) :
    List JsmAlert → List Alert → List Alert
  | [], db => db
  | j :: rest, db =>
    let jsm_id := j.top.id.getD ""
    if truthyStr j.top.id ∧ jsm_id ∉ processed then
      match db.find? (fun a => a.jsm_alert_id == some jsm_id) with
      | some _ =>
        process_unmatched_jsm extractName now processed rest
          (updateFirst (fun a => a.jsm_alert_id == some jsm_id)
            (fun a => update_jsm_fields now a j ⟨"jsm_only", 0⟩) db)
      | none =>
        process_unmatched_jsm extractName now processed rest
          (create_jsm_only_alert extractName now db j)
    else process_unmatched_jsm extractName now processed rest db

end AlertService

/-! ### Small derived predicates and concrete sample data used in the
statements below -/

/-- A result entry that claims a JSM alert whose top-level id is missing or
empty (so that `_safe_str(jsm_alert.get('id', ''))` is `""`). -/
def matchedWithEmptyId (r : MatchResult) : Bool :=
  match r.jsm_alert with
  | some a => AlertMatchingService.jsmIdOf a == ""
  | none => false

/-- All five component scores lie in the unit interval. -/
def scoresInUnit (s : Scores) : Prop :=
  0 ≤ s.name_similarity ∧ s.name_similarity ≤ 1 ∧
    0 ≤ s.cluster_similarity ∧ s.cluster_similarity ≤ 1 ∧
    0 ≤ s.severity_similarity ∧ s.severity_similarity ≤ 1 ∧
    0 ≤ s.temporal_similarity ∧ s.temporal_similarity ≤ 1 ∧
    0 ≤ s.content_similarity ∧ s.content_similarity ≤ 1

/-- An empty JSM payload. -/
def JsmData.empty : JsmData :=
  { id := none, tinyId := none, status := none, acknowledged := none
    owner := none, priority := none, createdAt := none
    jsm_created_at := none, updatedAt := none, lastOccuredAt := none
    count := none, tags := none, «alias» := none, integrationName := none
    source := none, message := none, description := none, entity := none }

/-- An empty Grafana alert dict. -/
def GrafanaData.empty : GrafanaData :=
  { alert_id := none, alert_name := none, cluster := none, pod := none
    severity := none, summary := none, description := none
    startsAt := none, started_at := none, generator_url := none
    labels := [], annotations := [] }

/-- Sample Grafana alert used by the witnesses. -/
def sampleGrafana : GrafanaData :=
  { GrafanaData.empty with
    alert_id := some "HighCPU-abc"
    labels := [("alertname", "HighCPU"), ("severity", "critical")] }

/-- Sample JSM alert with top-level id `"J1"` used by the witnesses. -/
def sampleJsm : JsmAlert :=
  { data := none, top := { JsmData.empty with id := some "J1" } }

/-- Grafana alert whose name differs from the JSM one, used to force the
`ratio` library call (and hence an injected scoring exception). -/
def grafanaNamed : GrafanaData :=
  { GrafanaData.empty with labels := [("alertname", "aaa")] }

/-- Similarity oracles whose `ratio` call raises, to exercise the `except`
branches. -/
def failingSim : SimOracles :=
  { ratio := fun _ _ => .error "boom"
    tfidf_cosine := none
    jsm_alert_name := fun _ => some "bbb"
    jsm_cluster := fun _ => none
    jsm_severity := fun _ => none }

/-- Benign similarity oracles (constant ratio 1/2, no vectorizer). -/
def halfSim : SimOracles :=
  { ratio := fun _ _ => .ok (1 / 2)
    tfidf_cosine := none
    jsm_alert_name := fun _ => some "bbb"
    jsm_cluster := fun _ => none
    jsm_severity := fun _ => none }

/-- Grafana alert with an unparseable `startsAt` string. -/
def grafanaBadTs : GrafanaData :=
  { GrafanaData.empty with startsAt := some (.str "not-a-timestamp") }

/-- Grafana alert with a well-formed `startsAt` string carrying a trailing
`Z`. -/
def grafanaGoodTs : GrafanaData :=
  { GrafanaData.empty with startsAt := some (.str "2025-06-26T10:00:00Z") }

/-- JSM alert with an unparseable `createdAt` string. -/
def jsmBadTs : JsmAlert :=
  { data := none
    top := { JsmData.empty with createdAt := some "not-a-timestamp" } }

/-- JSM alert with no id at all but an otherwise meaningful payload. -/
def jsmNoId : JsmAlert :=
  { data := none
    top := { JsmData.empty with message := some "orphan incident" } }

/-- Existing correlation record carrying a stale JSM snapshot and human
acknowledgement data. -/
def staleAlert : Alert :=
  { Alert.new with
    alert_id := some "HighCPU-abc"
    jsm_alert_id := some "J1"
    jsm_tiny_id := some "1234"
    jsm_status := some "open"
    jsm_acknowledged := true
    jsm_owner := some "alice"
    jsm_priority := some "P1"
    jsm_tags := ["team:core"]
    acknowledged_by := some "alice"
    acknowledged_at := some ⟨2025, 6, 26, 10, 0, 0, 0, none⟩
    resolved_by := some "bob"
    resolved_at := some ⟨2025, 6, 26, 11, 0, 0, 0, none⟩ }

/-- A sample wall-clock instant. -/
def sampleNow : PyDateTime := ⟨2025, 7, 1, 12, 0, 0, 0, none⟩

/-! ## Lemmas about the greedy matching loop -/

namespace AlertMatchingService

theorem findBestMatch_best_match (svc : AlertMatchingService)
    (calcConf : GrafanaData → JsmAlert → Except String (ℚ × MatchDetails))
    (g : GrafanaData) (used : List String) :
    ∀ (js : List JsmAlert) (st : BestState) (bm : JsmAlert),
      (findBestMatch svc calcConf g used js st).best_match = some bm →
      st.best_match = some bm ∨ (bm ∈ js ∧ jsmIdOf bm ∉ used) := by
  intro js
  induction js with
  | nil => intro st bm h; exact Or.inl h
  | cons j rest ih =>
    intro st bm h
    rw [findBestMatch] at h
    by_cases hu : jsmIdOf j ∈ used
    · rw [if_pos hu] at h
      rcases ih st bm h with h1 | ⟨h2, h3⟩
      · exact Or.inl h1
      · exact Or.inr ⟨List.mem_cons_of_mem _ h2, h3⟩
    · rw [if_neg hu] at h
      rcases hc : calcConf g j with e | ⟨c, d⟩ <;> simp only [hc] at h
      · rcases ih st bm h with h1 | ⟨h2, h3⟩
        · exact Or.inl h1
        · exact Or.inr ⟨List.mem_cons_of_mem _ h2, h3⟩
      · by_cases hcond : st.best_confidence < c ∧ svc.confidence_threshold ≤ c
        · rw [if_pos hcond] at h
          rcases ih _ bm h with h1 | ⟨h2, h3⟩
          · simp only [Option.some.injEq] at h1
            exact Or.inr ⟨h1 ▸ List.mem_cons_self j rest, h1 ▸ hu⟩
          · exact Or.inr ⟨List.mem_cons_of_mem _ h2, h3⟩
        · rw [if_neg hcond] at h
          rcases ih st bm h with h1 | ⟨h2, h3⟩
          · exact Or.inl h1
          · exact Or.inr ⟨List.mem_cons_of_mem _ h2, h3⟩

theorem matchLoop_not_used (svc : AlertMatchingService)
    (calcConf : GrafanaData → JsmAlert → Except String (ℚ × MatchDetails))
    (js : List JsmAlert) :
    ∀ (gs : List GrafanaData) (used : List String) (r : MatchResult),
      r ∈ matchLoop svc calcConf js gs used →
      ∀ bm, r.jsm_alert = some bm → jsmIdOf bm ∉ used := by
  intro gs
  induction gs with
  | nil => intro used r hr; simp [matchLoop] at hr
  | cons g rest ih =>
    intro used r hr bm hbm
    rw [matchLoop] at hr
    rcases hb : (findBestMatch svc calcConf g used js
        ⟨none, 0, .empty⟩).best_match with _ | bm0 <;>
      simp only [hb] at hr
    · rcases List.mem_cons.mp hr with h1 | h1
      · subst h1; simp [noMatchInfo] at hbm
      · exact ih _ r h1 bm hbm
    · rcases List.mem_cons.mp hr with h1 | h1
      · subst h1
        simp only [Option.some.injEq] at hbm
        subst hbm
        rcases findBestMatch_best_match svc calcConf g used js _ bm0 hb with
          h2 | ⟨_, h3⟩
        · simp at h2
        · exact h3
      · have h4 := ih _ r h1 bm hbm
        intro h5
        exact h4 (List.mem_cons_of_mem _ h5)

theorem matchLoop_pairwise (svc : AlertMatchingService)
    (calcConf : GrafanaData → JsmAlert → Except String (ℚ × MatchDetails))
    (js : List JsmAlert) :
    ∀ (gs : List GrafanaData) (used : List String),
      (matchLoop svc calcConf js gs used).Pairwise
        (fun r1 r2 => ∀ a b, r1.jsm_alert = some a → r2.jsm_alert = some b →
          jsmIdOf a ≠ jsmIdOf b) := by
  intro gs
  induction gs with
  | nil => intro used; simp [matchLoop]
  | cons g rest ih =>
    intro used
    rw [matchLoop]
    rcases hb : (findBestMatch svc calcConf g used js
        ⟨none, 0, .empty⟩).best_match with _ | bm0 <;>
      simp only [hb]
    · exact List.Pairwise.cons (by simp [noMatchInfo]) (ih used)
    · refine List.Pairwise.cons ?_ (ih _)
      intro r hr a b ha hbm
      simp only [Option.some.injEq] at ha
      subst ha
      have h1 := matchLoop_not_used svc calcConf js rest _ r hr b hbm
      intro h2
      exact h1 (h2 ▸ List.mem_cons_self _ _)

theorem findBestMatch_cons_used (svc : AlertMatchingService)
    (calcConf : GrafanaData → JsmAlert → Except String (ℚ × MatchDetails))
    (g : GrafanaData) (used : List String) (j : JsmAlert)
    (rest : List JsmAlert) (st : BestState) (hu : jsmIdOf j ∈ used) :
    findBestMatch svc calcConf g used (j :: rest) st =
      findBestMatch svc calcConf g used rest st := by
  rw [findBestMatch, if_pos hu]

theorem findBestMatch_cons_err (svc : AlertMatchingService)
    (calcConf : GrafanaData → JsmAlert → Except String (ℚ × MatchDetails))
    (g : GrafanaData) (used : List String) (j : JsmAlert)
    (rest : List JsmAlert) (st : BestState) (e : String)
    (hu : jsmIdOf j ∉ used) (hc : calcConf g j = .error e) :
    findBestMatch svc calcConf g used (j :: rest) st =
      findBestMatch svc calcConf g used rest st := by
  rw [findBestMatch, if_neg hu, hc]

theorem findBestMatch_cons_ok (svc : AlertMatchingService)
    (calcConf : GrafanaData → JsmAlert → Except String (ℚ × MatchDetails))
    (g : GrafanaData) (used : List String) (j : JsmAlert)
    (rest : List JsmAlert) (st : BestState) (c : ℚ) (d : MatchDetails)
    (hu : jsmIdOf j ∉ used) (hc : calcConf g j = .ok (c, d)) :
    findBestMatch svc calcConf g used (j :: rest) st =
      if st.best_confidence < c ∧ svc.confidence_threshold ≤ c then
        findBestMatch svc calcConf g used rest ⟨some j, c, d⟩
      else findBestMatch svc calcConf g used rest st := by
  rw [findBestMatch, if_neg hu, hc]

theorem findBestMatch_below (svc : AlertMatchingService)
    (calcConf : GrafanaData → JsmAlert → Except String (ℚ × MatchDetails))
    (g : GrafanaData) (used : List String) :
    ∀ (js : List JsmAlert) (st : BestState),
      (∀ j ∈ js, ∀ c d, calcConf g j = .ok (c, d) →
        c < svc.confidence_threshold) →
      findBestMatch svc calcConf g used js st = st := by
  intro js
  induction js with
  | nil => intro st _; rfl
  | cons j rest ih =>
    intro st hbelow
    have hrest : ∀ j' ∈ rest, ∀ c d, calcConf g j' = .ok (c, d) →
        c < svc.confidence_threshold :=
      fun j' hj' => hbelow j' (List.mem_cons_of_mem _ hj')
    by_cases hu : jsmIdOf j ∈ used
    · rw [findBestMatch_cons_used svc calcConf g used j rest st hu]
      exact ih st hrest
    · rcases hc : calcConf g j with e | ⟨c, d⟩
      · rw [findBestMatch_cons_err svc calcConf g used j rest st e hu hc]
        exact ih st hrest
      · have hlt := hbelow j (List.mem_cons_self _ _) c d hc
        rw [findBestMatch_cons_ok svc calcConf g used j rest st c d hu hc,
          if_neg (fun hcond => absurd hcond.2 (not_le.mpr hlt))]
        exact ih st hrest

theorem matchLoop_below (svc : AlertMatchingService)
    (calcConf : GrafanaData → JsmAlert → Except String (ℚ × MatchDetails))
    (js : List JsmAlert) :
    ∀ (gs : List GrafanaData) (used : List String) (i : ℕ) (g : GrafanaData),
      gs[i]? = some g →
      (∀ j ∈ js, ∀ c d, calcConf g j = .ok (c, d) →
        c < svc.confidence_threshold) →
      (matchLoop svc calcConf js gs used)[i]? = some (noMatchInfo g) := by
  intro gs
  induction gs with
  | nil => intro used i g hg; simp at hg
  | cons g0 rest ih =>
    intro used i g hg hbelow
    match i with
    | 0 =>
      have hgg : g0 = g := by simpa using hg
      subst hgg
      rw [matchLoop]
      have hfb := findBestMatch_below svc calcConf g0 used js
        ⟨none, 0, .empty⟩ hbelow
      simp [hfb]
    | Nat.succ n =>
      simp only [List.getElem?_cons_succ] at hg
      rw [matchLoop]
      rcases (findBestMatch svc calcConf g0 used js
          ⟨none, 0, .empty⟩).best_match with _ | bm0 <;>
        simpa using ih _ n g hg hbelow

theorem findBestMatch_congr (svc : AlertMatchingService)
    (calc₁ calc₂ : GrafanaData → JsmAlert → Except String (ℚ × MatchDetails))
    (g : GrafanaData) (used : List String)
    (hcc : ∀ j, calc₁ g j = calc₂ g j ∨
      ((∃ e, calc₁ g j = .error e) ∧ ∃ d, calc₂ g j = .ok (0, d))) :
    ∀ (js : List JsmAlert) (st : BestState), 0 ≤ st.best_confidence →
      findBestMatch svc calc₁ g used js st =
        findBestMatch svc calc₂ g used js st := by
  intro js
  induction js with
  | nil => intro st _; rfl
  | cons j rest ih =>
    intro st hst
    by_cases hu : jsmIdOf j ∈ used
    · rw [findBestMatch_cons_used svc calc₁ g used j rest st hu,
        findBestMatch_cons_used svc calc₂ g used j rest st hu]
      exact ih st hst
    · rcases hcc j with heq | ⟨⟨e, h1⟩, ⟨d, h2⟩⟩
      · rcases hc2 : calc₂ g j with e2 | ⟨c, d2⟩
        · rw [findBestMatch_cons_err svc calc₁ g used j rest st e2 hu
            (heq.trans hc2),
            findBestMatch_cons_err svc calc₂ g used j rest st e2 hu hc2]
          exact ih st hst
        · rw [findBestMatch_cons_ok svc calc₁ g used j rest st c d2 hu
            (heq.trans hc2),
            findBestMatch_cons_ok svc calc₂ g used j rest st c d2 hu hc2]
          by_cases hcond : st.best_confidence < c ∧
              svc.confidence_threshold ≤ c
          · rw [if_pos hcond, if_pos hcond]
            exact ih _ (le_of_lt (lt_of_le_of_lt hst hcond.1))
          · rw [if_neg hcond, if_neg hcond]
            exact ih st hst
      · rw [findBestMatch_cons_err svc calc₁ g used j rest st e hu h1,
          findBestMatch_cons_ok svc calc₂ g used j rest st 0 d hu h2,
          if_neg (fun hcond => absurd hcond.1 (not_lt.mpr hst))]
        exact ih st hst

theorem matchLoop_congr (svc : AlertMatchingService)
    (calc₁ calc₂ : GrafanaData → JsmAlert → Except String (ℚ × MatchDetails))
    (js : List JsmAlert)
    (hcc : ∀ g j, calc₁ g j = calc₂ g j ∨
      ((∃ e, calc₁ g j = .error e) ∧ ∃ d, calc₂ g j = .ok (0, d))) :
    ∀ (gs : List GrafanaData) (used : List String),
      matchLoop svc calc₁ js gs used = matchLoop svc calc₂ js gs used := by
  intro gs
  induction gs with
  | nil => intro used; rfl
  | cons g rest ih =>
    intro used
    rw [matchLoop, matchLoop]
    rw [findBestMatch_congr svc calc₁ calc₂ g used (hcc g) js
      ⟨none, 0, .empty⟩ le_rfl]
    rcases (findBestMatch svc calc₂ g used js ⟨none, 0, .empty⟩).best_match
      with _ | bm0
    · simp only [ih]
    · simp only [ih]

theorem countP_le_one_of_pairwise {α : Type} (p : α → Bool) :
    ∀ l : List α, l.Pairwise (fun a b => ¬(p a = true ∧ p b = true)) →
      l.countP p ≤ 1 := by
  intro l
  induction l with
  | nil => simp
  | cons a rest ih =>
    intro hp
    rcases List.pairwise_cons.mp hp with ⟨h1, h2⟩
    by_cases hpa : p a = true
    · rw [List.countP_cons_of_pos _ _ hpa]
      have hz : rest.countP p = 0 :=
        List.countP_eq_zero.mpr (fun b hb hpb => (h1 b hb) ⟨hpa, hpb⟩)
      omega
    · rw [List.countP_cons_of_neg _ _ hpa]
      exact ih h2

theorem matchLoop_length (svc : AlertMatchingService)
    (calcConf : GrafanaData → JsmAlert → Except String (ℚ × MatchDetails))
    (js : List JsmAlert) :
    ∀ (gs : List GrafanaData) (used : List String),
      (matchLoop svc calcConf js gs used).length = gs.length := by
  intro gs
  induction gs with
  | nil => intro used; simp [matchLoop]
  | cons g rest ih =>
    intro used
    rw [matchLoop]
    rcases (findBestMatch svc calcConf g used js
        ⟨none, 0, .empty⟩).best_match with _ | bm0 <;>
      simp [ih]

end AlertMatchingService

/-! ## Lemmas about the confidence aggregation -/

namespace AlertMatchingService

theorem jaccard_unit {A B : Finset String} (hA : A.Nonempty) :
    0 ≤ ((A ∩ B).card : ℚ) / ((A ∪ B).card : ℚ) ∧
      ((A ∩ B).card : ℚ) / ((A ∪ B).card : ℚ) ≤ 1 := by
  have hcard : (A ∩ B).card ≤ (A ∪ B).card :=
    Finset.card_le_card Finset.inter_subset_union
  have hpos : 0 < ((A ∪ B).card : ℚ) := by
    have h1 : 0 < (A ∪ B).card :=
      Finset.card_pos.mpr (hA.mono Finset.subset_union_left)
    exact_mod_cast h1
  refine ⟨div_nonneg (by exact_mod_cast Nat.zero_le _) hpos.le, ?_⟩
  rw [div_le_one hpos]
  exact_mod_cast hcard

theorem severityScore_unit (gn jn : String) :
    0 ≤ (severityScore gn jn).1 ∧ (severityScore gn jn).1 ≤ 1 := by
  unfold severityScore
  by_cases h : gn = jn
  · rw [if_pos h]; constructor <;> norm_num
  · rw [if_neg h]
    rcases h1 : severityGroupOf gn with _ | g1 <;>
      rcases h2 : severityGroupOf jn with _ | g2 <;>
        simp only [h1, h2] <;> (try split_ifs) <;> constructor <;> norm_num

theorem calculate_severity_similarity_unit (gs js : String) :
    0 ≤ (calculate_severity_similarity gs js).1 ∧
      (calculate_severity_similarity gs js).1 ≤ 1 :=
  severityScore_unit _ _

theorem timeDiffScore_unit (t : ℚ) :
    0 ≤ (timeDiffScore t).1 ∧ (timeDiffScore t).1 ≤ 1 := by
  unfold timeDiffScore
  constructor <;> simp only [] <;> split_ifs <;> norm_num

theorem calculate_temporal_similarity_unit (g : GrafanaData)
    (j : JsmAlert) :
    0 ≤ (calculate_temporal_similarity g j).1 ∧
      (calculate_temporal_similarity g j).1 ≤ 1 := by
  unfold calculate_temporal_similarity
  rcases h1 : parse_grafana_timestamp g with _ | gt <;>
    rcases h2 : parse_jsm_timestamp j with _ | jt <;>
      simp only [h1, h2]
  case some.some =>
    rcases h3 : PyDateTime.subSeconds gt jt with e | secs <;>
      simp only [h3]
    · constructor <;> norm_num
    · exact timeDiffScore_unit _
  all_goals constructor <;> norm_num

theorem jaccardRatio_unit (gw jw : Finset String) :
    0 ≤ jaccardRatio gw jw ∧ jaccardRatio gw jw ≤ 1 := by
  unfold jaccardRatio
  split_ifs with h1 h2
  · exact jaccard_unit h1.1
  · constructor <;> norm_num
  · constructor <;> norm_num

theorem calculate_cluster_similarity_ok_unit
    (ratio : String → String → Except String ℚ)
    (hr : ∀ a b, ∃ q, ratio a b = .ok q ∧ 0 ≤ q ∧ q ≤ 1)
    (gc jc : String) :
    ∃ q m, calculate_cluster_similarity ratio gc jc = .ok (q, m) ∧
      0 ≤ q ∧ q ≤ 1 := by
  unfold calculate_cluster_similarity
  split_ifs with h1 h2 h3 h4
  · exact ⟨0.5, _, rfl, by norm_num, by norm_num⟩
  · exact ⟨0.3, _, rfl, by norm_num, by norm_num⟩
  · exact ⟨1, _, rfl, by norm_num, by norm_num⟩
  · exact ⟨0.85, _, rfl, by norm_num, by norm_num⟩
  · obtain ⟨r, hrr, h5, h6⟩ := hr (pyLower gc) (pyLower jc)
    exact ⟨r, "sequence_similarity", by rw [hrr]; rfl, h5, h6⟩

theorem calculate_name_similarity_ok_unit
    (ratio : String → String → Except String ℚ)
    (hr : ∀ a b, ∃ q, ratio a b = .ok q ∧ 0 ≤ q ∧ q ≤ 1)
    (gn jn : String) :
    ∃ q m, calculate_name_similarity ratio gn jn = .ok (q, m) ∧
      0 ≤ q ∧ q ≤ 1 := by
  unfold calculate_name_similarity
  split_ifs with h1 h2 h3
  · exact ⟨0, _, rfl, by norm_num, by norm_num⟩
  · exact ⟨1, _, rfl, by norm_num, by norm_num⟩
  · exact ⟨0.90, _, rfl, by norm_num, by norm_num⟩
  · obtain ⟨r, hrr, h5, h6⟩ :=
      hr (normalize_alert_name gn) (normalize_alert_name jn)
    have hjac := jaccardRatio_unit
      (pySplit (normalize_alert_name gn)).toFinset
      (pySplit (normalize_alert_name jn)).toFinset
    exact ⟨max r (jaccardRatio (pySplit (normalize_alert_name gn)).toFinset
        (pySplit (normalize_alert_name jn)).toFinset), _,
      by rw [hrr]; rfl, le_trans h5 (le_max_left _ _), max_le h6 hjac.2⟩

theorem calculate_content_similarity_unit
    (cos : Option (String → String → Except String ℚ))
    (hc : ∀ f, cos = some f → ∀ a b q, f a b = .ok q → 0 ≤ q ∧ q ≤ 1)
    (g : GrafanaData) (j : JsmAlert) :
    0 ≤ (calculate_content_similarity cos g j).1 ∧
      (calculate_content_similarity cos g j).1 ≤ 1 := by
  unfold calculate_content_similarity
  split_ifs with h1 h2
  · constructor <;> norm_num
  · rcases hcos : cos with _ | f <;> simp only [hcos]
    · exact jaccard_unit h2.1
    · rcases hf : f (extract_grafana_text g) (extract_jsm_text j) with
        e | v <;> simp only [hf]
      · exact jaccard_unit h2.1
      · exact hc f hcos _ _ v hf
  · rcases hcos : cos with _ | f <;> simp only [hcos]
    · constructor <;> norm_num
    · rcases hf : f (extract_grafana_text g) (extract_jsm_text j) with
        e | v <;> simp only [hf]
      · constructor <;> norm_num
      · exact hc f hcos _ _ v hf

theorem weightedSum_weights_unit (s : Scores) (h : scoresInUnit s) :
    0 ≤ weightedSum weights s ∧ weightedSum weights s ≤ 1 := by
  obtain ⟨h1, h2, h3, h4, h5, h6, h7, h8, h9, h10⟩ := h
  unfold weightedSum weights
  constructor <;> nlinarith

theorem calcBody_ok (sim : SimOracles) (g : GrafanaData) (j : JsmAlert)
    (hr : ∀ a b, ∃ q, sim.ratio a b = .ok q ∧ 0 ≤ q ∧ q ≤ 1)
    (hc : ∀ f, sim.tfidf_cosine = some f →
      ∀ a b q, f a b = .ok q → 0 ≤ q ∧ q ≤ 1) :
    ∃ (s : Scores) (nm : Option String) (cm sm tm om : String),
      calcBody sim g j = .ok (weightedSum weights s,
        .ok ⟨nm, some cm, some sm, some tm, some om, s,
          weightedSum weights s⟩) ∧
      scoresInUnit s := by
  obtain ⟨qc, mc, hcl, hc0, hc1⟩ := calculate_cluster_similarity_ok_unit
    sim.ratio hr (extract_grafana_cluster g) (extract_jsm_cluster sim j)
  have hsev := calculate_severity_similarity_unit
    (extract_grafana_severity g) (extract_jsm_severity sim j)
  have htmp := calculate_temporal_similarity_unit g j
  have hcon := calculate_content_similarity_unit sim.tfidf_cosine hc g j
  by_cases hcond : extract_grafana_alert_name g ≠ "" ∧
      extract_jsm_alert_name sim j ≠ ""
  · obtain ⟨qn, mn, hn, hn0, hn1⟩ := calculate_name_similarity_ok_unit
      sim.ratio hr (extract_grafana_alert_name g)
      (extract_jsm_alert_name sim j)
    refine ⟨⟨qn,
        qc,
        (calculate_severity_similarity (extract_grafana_severity g)
          (extract_jsm_severity sim j)).1,
        (calculate_temporal_similarity g j).1,
        (calculate_content_similarity sim.tfidf_cosine g j).1⟩,
      some mn, mc,
      (calculate_severity_similarity (extract_grafana_severity g)
        (extract_jsm_severity sim j)).2,
      (calculate_temporal_similarity g j).2,
      (calculate_content_similarity sim.tfidf_cosine g j).2, ?_,
      hn0, hn1, hc0, hc1, hsev.1, hsev.2, htmp.1, htmp.2, hcon.1, hcon.2⟩
    unfold calcBody
    rw [if_pos hcond, hn, hcl]
    rfl
  · refine ⟨⟨0,
        qc,
        (calculate_severity_similarity (extract_grafana_severity g)
          (extract_jsm_severity sim j)).1,
        (calculate_temporal_similarity g j).1,
        (calculate_content_similarity sim.tfidf_cosine g j).1⟩,
      none, mc,
      (calculate_severity_similarity (extract_grafana_severity g)
        (extract_jsm_severity sim j)).2,
      (calculate_temporal_similarity g j).2,
      (calculate_content_similarity sim.tfidf_cosine g j).2, ?_,
      le_refl 0, by norm_num, hc0, hc1, hsev.1, hsev.2, htmp.1, htmp.2,
      hcon.1, hcon.2⟩
    unfold calcBody
    rw [if_neg hcond, hcl]
    rfl

end AlertMatchingService

/-! ## Claim theorems for the matching loop -/

/-- C1: in every run of `match_grafana_with_jsm`, over any list of Grafana
alerts and any list of JSM alerts and for any confidence computation, no JSM
alert id (`_safe_str(get('id', ''))`) appears as the assigned `jsm_alert` of
more than one result entry: the claimed id goes into `used_jsm_alerts` and
is skipped for all later Grafana alerts. -/
theorem C1_one_to_one_assignment (svc : AlertMatchingService)
    (calcConf : GrafanaData → JsmAlert → Except String (ℚ × MatchDetails))
    (grafana_alerts : List GrafanaData) (jsm_alerts : List JsmAlert) :
    (AlertMatchingService.match_grafana_with_jsm svc calcConf grafana_alerts
      jsm_alerts).Pairwise
      (fun r1 r2 => ∀ a b, r1.jsm_alert = some a → r2.jsm_alert = some b →
        AlertMatchingService.jsmIdOf a ≠ AlertMatchingService.jsmIdOf b) :=
  AlertMatchingService.matchLoop_pairwise svc calcConf jsm_alerts
    grafana_alerts []

/-- C10: at most one result entry of any `match_grafana_with_jsm` run claims
a JSM alert with a missing or empty id — once one is claimed, `""` enters
`used_jsm_alerts` and every further id-less candidate is skipped. -/
theorem C10_at_most_one_idless_match (svc : AlertMatchingService)
    (calcConf : GrafanaData → JsmAlert → Except String (ℚ × MatchDetails))
    (grafana_alerts : List GrafanaData) (jsm_alerts : List JsmAlert) :
    (AlertMatchingService.match_grafana_with_jsm svc calcConf grafana_alerts
      jsm_alerts).countP matchedWithEmptyId ≤ 1 := by
  apply AlertMatchingService.countP_le_one_of_pairwise
  refine (AlertMatchingService.matchLoop_pairwise svc calcConf jsm_alerts
    grafana_alerts []).imp ?_
  intro r1 r2 h hfalse
  rcases hfalse with ⟨h1, h2⟩
  unfold matchedWithEmptyId at h1 h2
  rcases ha : r1.jsm_alert with _ | a
  · rw [ha] at h1; simp at h1
  · rcases hb : r2.jsm_alert with _ | b
    · rw [hb] at h2; simp at h2
    · rw [ha] at h1
      rw [hb] at h2
      simp only [beq_iff_eq] at h1 h2
      exact (h a b ha hb) (h1.trans h2.symm)

/-- C2: for every pair, assuming only that the library similarity calls
return values in `[0, 1]`, `calculate_match_confidence` returns exactly the
weighted sum of the five component scores with weights name `0.40`,
cluster `0.25`, severity `0.15`, temporal `0.10`, content `0.10`; these
weights sum to `1`, each component score lies in `[0, 1]`, and hence the
confidence lies in `[0, 1]`. -/
theorem C2_weighted_confidence (sim : SimOracles) (g : GrafanaData)
    (j : JsmAlert)
    (hr : ∀ a b, ∃ q, sim.ratio a b = Except.ok q ∧ 0 ≤ q ∧ q ≤ 1)
    (hc : ∀ f, sim.tfidf_cosine = some f →
      ∀ a b q, f a b = Except.ok q → 0 ≤ q ∧ q ≤ 1) :
    weights.name_similarity = 0.40 ∧ weights.cluster_similarity = 0.25 ∧
    weights.severity_similarity = 0.15 ∧
    weights.temporal_similarity = 0.10 ∧
    weights.content_similarity = 0.10 ∧
    weights.name_similarity + weights.cluster_similarity +
      weights.severity_similarity + weights.temporal_similarity +
      weights.content_similarity = 1 ∧
    ∃ pd : PairDetails,
      AlertMatchingService.calculate_match_confidence sim g j =
        (weightedSum weights pd.component_scores, MatchDetails.ok pd) ∧
      pd.final_confidence = weightedSum weights pd.component_scores ∧
      scoresInUnit pd.component_scores ∧
      0 ≤ weightedSum weights pd.component_scores ∧
      weightedSum weights pd.component_scores ≤ 1 := by
  obtain ⟨s, nm, cm, sm, tm, om, hbody, hunit⟩ :=
    AlertMatchingService.calcBody_ok sim g j hr hc
  have hbounds := AlertMatchingService.weightedSum_weights_unit s hunit
  refine ⟨rfl, rfl, rfl, rfl, rfl, by norm_num [weights],
    ⟨nm, some cm, some sm, some tm, some om, s, weightedSum weights s⟩,
    ?_, rfl, hunit, hbounds.1, hbounds.2⟩
  unfold AlertMatchingService.calculate_match_confidence
  rw [hbody]

/-- Witness for C2 with a constant `1/2` sequence ratio and no TF-IDF
vectorizer. -/
theorem C2_weighted_confidence_witness :
    weights.name_similarity = 0.40 ∧ weights.cluster_similarity = 0.25 ∧
    weights.severity_similarity = 0.15 ∧
    weights.temporal_similarity = 0.10 ∧
    weights.content_similarity = 0.10 ∧
    weights.name_similarity + weights.cluster_similarity +
      weights.severity_similarity + weights.temporal_similarity +
      weights.content_similarity = 1 ∧
    ∃ pd : PairDetails,
      AlertMatchingService.calculate_match_confidence halfSim sampleGrafana
          sampleJsm =
        (weightedSum weights pd.component_scores, MatchDetails.ok pd) ∧
      pd.final_confidence = weightedSum weights pd.component_scores ∧
      scoresInUnit pd.component_scores ∧
      0 ≤ weightedSum weights pd.component_scores ∧
      weightedSum weights pd.component_scores ≤ 1 :=
  C2_weighted_confidence halfSim sampleGrafana sampleJsm
    (fun a b => ⟨1 / 2, rfl, by norm_num, by norm_num⟩)
    (fun f hf => by simp [halfSim] at hf)

/-- C3: a candidate whose confidence is exactly the acceptance threshold is
accepted (it becomes the best candidate whenever it beats the current best,
and a single-pair run at exactly the threshold produces a match), while a
Grafana alert all of whose candidates score strictly below the threshold
yields the no-match entry with `match_type = 'none'` and confidence `0`. -/
theorem C3_threshold_boundary :
    (∀ (svc : AlertMatchingService) calcConf g used js
        (st : AlertMatchingService.BestState) j d,
      AlertMatchingService.jsmIdOf j ∉ used →
      calcConf g j = Except.ok (svc.confidence_threshold, d) →
      st.best_confidence < svc.confidence_threshold →
      AlertMatchingService.findBestMatch svc calcConf g used (j :: js) st =
        AlertMatchingService.findBestMatch svc calcConf g used js
          ⟨some j, svc.confidence_threshold, d⟩) ∧
    (∀ (svc : AlertMatchingService) calcConf g j d,
      calcConf g j = Except.ok (svc.confidence_threshold, d) →
      0 < svc.confidence_threshold →
      AlertMatchingService.match_grafana_with_jsm svc calcConf [g] [j] =
        [{ grafana_alert := g, jsm_alert := some j,
           match_type :=
             svc.determine_match_type svc.confidence_threshold d,
           match_confidence := svc.confidence_threshold,
           match_details := d }]) ∧
    (∀ (svc : AlertMatchingService) calcConf (gs : List GrafanaData)
        (js : List JsmAlert) (i : ℕ) (g : GrafanaData),
      gs[i]? = some g →
      (∀ j ∈ js, ∀ c d, calcConf g j = Except.ok (c, d) →
        c < svc.confidence_threshold) →
      (AlertMatchingService.match_grafana_with_jsm svc calcConf gs js)[i]? =
        some (AlertMatchingService.noMatchInfo g)) := by
  refine ⟨?_, ?_, ?_⟩
  · intro svc calcConf g used js st j d hu hc hlt
    rw [AlertMatchingService.findBestMatch_cons_ok svc calcConf g used j js
      st svc.confidence_threshold d hu hc, if_pos ⟨hlt, le_refl _⟩]
  · intro svc calcConf g j d hc hth
    have hst : AlertMatchingService.findBestMatch svc calcConf g [] [j]
        ⟨none, 0, .empty⟩ = ⟨some j, svc.confidence_threshold, d⟩ := by
      rw [AlertMatchingService.findBestMatch_cons_ok svc calcConf g [] j []
        ⟨none, 0, .empty⟩ svc.confidence_threshold d (List.not_mem_nil _) hc,
        if_pos ⟨hth, le_refl _⟩]
      rfl
    simp only [AlertMatchingService.match_grafana_with_jsm,
      AlertMatchingService.matchLoop, hst]
  · intro svc calcConf gs js i g hg hbelow
    exact AlertMatchingService.matchLoop_below svc calcConf js gs [] i g hg
      hbelow

/-- Witness for C3 at the default thresholds: a single candidate scoring
exactly `0.70` is matched; one scoring `0.69` yields the no-match entry. -/
theorem C3_threshold_boundary_witness :
    AlertMatchingService.match_grafana_with_jsm defaultService
        (fun _ _ => Except.ok (0.70, MatchDetails.empty))
        [sampleGrafana] [sampleJsm] =
      [{ grafana_alert := sampleGrafana, jsm_alert := some sampleJsm,
         match_type := defaultService.determine_match_type 0.70
           MatchDetails.empty,
         match_confidence := 0.70, match_details := MatchDetails.empty }] ∧
    (AlertMatchingService.match_grafana_with_jsm defaultService
        (fun _ _ => Except.ok (0.69, MatchDetails.empty))
        [sampleGrafana] [sampleJsm])[0]? =
      some (AlertMatchingService.noMatchInfo sampleGrafana) := by
  constructor
  · exact C3_threshold_boundary.2.1 defaultService _ sampleGrafana sampleJsm
      MatchDetails.empty rfl (by norm_num [defaultService])
  · refine C3_threshold_boundary.2.2 defaultService _ [sampleGrafana]
      [sampleJsm] 0 sampleGrafana rfl ?_
    intro j hj c d hcd
    have hc : (0.69 : ℚ) = c := congrArg Prod.fst (Except.ok.inj hcd)
    rw [← hc]
    norm_num [defaultService]

/-- C5: a raised scoring exception is isolated — inside
`calculate_match_confidence` it is caught and converted to confidence `0.0`
with an error detail; in the matching loop, replacing every raising pair by
a pair scoring `0` leaves the output unchanged; and the loop always produces
one result per Grafana alert regardless of scoring errors. -/
theorem C5_scoring_error_isolation :
    (∀ (sim : SimOracles) g j e,
      AlertMatchingService.calcBody sim g j = Except.error e →
      AlertMatchingService.calculate_match_confidence sim g j =
        (0, MatchDetails.err e)) ∧
    (∀ (svc : AlertMatchingService) calc₁ calc₂
        (gs : List GrafanaData) (js : List JsmAlert),
      (∀ g j, calc₁ g j = calc₂ g j ∨
        ((∃ e, calc₁ g j = Except.error e) ∧
          ∃ d, calc₂ g j = Except.ok (0, d))) →
      AlertMatchingService.match_grafana_with_jsm svc calc₁ gs js =
        AlertMatchingService.match_grafana_with_jsm svc calc₂ gs js) ∧
    (∀ (svc : AlertMatchingService) calcConf
        (gs : List GrafanaData) (js : List JsmAlert),
      (AlertMatchingService.match_grafana_with_jsm svc calcConf gs
        js).length = gs.length) := by
  refine ⟨?_, ?_, ?_⟩
  · intro sim g j e h
    unfold AlertMatchingService.calculate_match_confidence
    rw [h]
  · intro svc calc₁ calc₂ gs js hcc
    exact AlertMatchingService.matchLoop_congr svc calc₁ calc₂ js hcc gs []
  · intro svc calcConf gs js
    exact AlertMatchingService.matchLoop_length svc calcConf js gs []

/-- Witness for C5: a `ratio` call that raises makes
`calculate_match_confidence` return `(0, error)`; an always-raising
confidence computation yields the same output as an always-zero one, and
still one result per alert. -/
theorem C5_scoring_error_isolation_witness :
    AlertMatchingService.calculate_match_confidence failingSim grafanaNamed
        sampleJsm = (0, MatchDetails.err "boom") ∧
    AlertMatchingService.match_grafana_with_jsm defaultService
        (fun _ _ => Except.error "boom") [sampleGrafana] [sampleJsm] =
      AlertMatchingService.match_grafana_with_jsm defaultService
        (fun _ _ => Except.ok (0, MatchDetails.empty))
        [sampleGrafana] [sampleJsm] ∧
    (AlertMatchingService.match_grafana_with_jsm defaultService
        (fun _ _ => Except.error "boom") [sampleGrafana]
        [sampleJsm]).length = 1 := by
  refine ⟨?_, ?_, ?_⟩
  · exact C5_scoring_error_isolation.1 failingSim grafanaNamed sampleJsm
      "boom" rfl
  · exact C5_scoring_error_isolation.2.1 defaultService _ _ [sampleGrafana]
      [sampleJsm]
      (fun g j => Or.inr ⟨⟨"boom", rfl⟩, ⟨MatchDetails.empty, rfl⟩⟩)
  · exact C5_scoring_error_isolation.2.2 defaultService _ [sampleGrafana]
      [sampleJsm]

/-! ## Lemmas about name normalization (for the idempotence claim) -/

theorem char_toLower_idem (c : Char) : c.toLower.toLower = c.toLower := by
  unfold Char.toLower
  by_cases h : c.toNat ≥ 65 ∧ c.toNat ≤ 90
  · rw [if_pos h]
    have hv : (c.toNat + 32).isValidChar := Or.inl (by omega)
    have ht : (Char.ofNat (c.toNat + 32)).toNat = c.toNat + 32 := by
      unfold Char.ofNat
      rw [dif_pos hv]
      rfl
    rw [ht, if_neg (by omega)]
  · rw [if_neg h, if_neg h]

theorem collapseWsAux_mem :
    ∀ (l : List Char) (b : Bool) (c : Char), c ∈ collapseWsAux b l →
      c = ' ' ∨ (c ∈ l ∧ isPySpaceChar c = false) := by
  intro l
  induction l with
  | nil => intro b c h; simp [collapseWsAux] at h
  | cons x rest ih =>
    intro b c h
    rw [collapseWsAux] at h
    by_cases hx : isPySpaceChar x = true
    · rw [if_pos hx] at h
      cases b with
      | false =>
        rw [if_neg Bool.false_ne_true] at h
        rcases List.mem_cons.mp h with rfl | h2
        · exact Or.inl rfl
        · rcases ih true c h2 with h3 | ⟨h4, h5⟩
          · exact Or.inl h3
          · exact Or.inr ⟨List.mem_cons_of_mem _ h4, h5⟩
      | true =>
        rw [if_pos rfl] at h
        rcases ih true c h with h3 | ⟨h4, h5⟩
        · exact Or.inl h3
        · exact Or.inr ⟨List.mem_cons_of_mem _ h4, h5⟩
    · rw [if_neg hx] at h
      rcases List.mem_cons.mp h with rfl | h2
      · exact Or.inr ⟨List.mem_cons_self _ _, Bool.not_eq_true _ ▸ hx⟩
      · rcases ih false c h2 with h3 | ⟨h4, h5⟩
        · exact Or.inl h3
        · exact Or.inr ⟨List.mem_cons_of_mem _ h4, h5⟩

theorem collapseWsAux_true_head :
    ∀ (l : List Char) (c : Char), (collapseWsAux true l).head? = some c →
      isPySpaceChar c = false := by
  intro l
  induction l with
  | nil => intro c h; simp [collapseWsAux] at h
  | cons x rest ih =>
    intro c h
    rw [collapseWsAux] at h
    by_cases hx : isPySpaceChar x = true
    · rw [if_pos hx, if_pos rfl] at h
      exact ih c h
    · rw [if_neg hx] at h
      simp only [List.head?_cons, Option.some.injEq] at h
      exact h ▸ Bool.not_eq_true _ ▸ hx

theorem collapseWsAux_chain :
    ∀ (l : List Char) (b : Bool),
      (collapseWsAux b l).Chain'
        (fun a c : Char =>
          ¬(isPySpaceChar a = true ∧ isPySpaceChar c = true)) := by
  intro l
  induction l with
  | nil => intro b; simp [collapseWsAux]
  | cons x rest ih =>
    intro b
    rw [collapseWsAux]
    by_cases hx : isPySpaceChar x = true
    · rw [if_pos hx]
      cases b with
      | false =>
        rw [if_neg Bool.false_ne_true]
        refine List.chain'_cons'.mpr ⟨?_, ih true⟩
        intro y hy h2
        exact absurd h2.2
          (by rw [collapseWsAux_true_head rest y hy]; simp)
      | true =>
        rw [if_pos rfl]
        exact ih true
    · rw [if_neg hx]
      refine List.chain'_cons'.mpr ⟨?_, ih false⟩
      intro y hy h2
      exact hx h2.1

theorem collapseWsAux_eq_self :
    ∀ (l : List Char) (b : Bool),
      l.Chain' (fun a c : Char =>
        ¬(isPySpaceChar a = true ∧ isPySpaceChar c = true)) →
      (∀ c ∈ l, isPySpaceChar c = true → c = ' ') →
      (b = true → ∀ c, l.head? = some c → isPySpaceChar c = false) →
      collapseWsAux b l = l := by
  intro l
  induction l with
  | nil => intro b _ _ _; rfl
  | cons x rest ih =>
    intro b hchain hsp hhd
    have hch := List.chain'_cons'.mp hchain
    rw [collapseWsAux]
    by_cases hx : isPySpaceChar x = true
    · rw [if_pos hx]
      cases b with
      | false =>
        have hx' : x = ' ' := hsp x (List.mem_cons_self _ _) hx
        have hrest : collapseWsAux true rest = rest := by
          refine ih true hch.2
            (fun c hc h => hsp c (List.mem_cons_of_mem _ hc) h) ?_
          intro _ c hc
          by_contra hcsp
          refine (hch.1 c ?_) ⟨hx, Bool.not_eq_false _ ▸ hcsp⟩
          exact hc
        rw [if_neg Bool.false_ne_true, hrest, hx']
      | true =>
        exact absurd hx (by rw [hhd rfl x List.head?_cons]; simp)
    · rw [if_neg hx]
      rw [ih false hch.2 (fun c hc h => hsp c (List.mem_cons_of_mem _ hc) h)
        (by intro h; cases h)]

theorem dropWhile_eq_self_of_head (p : Char → Bool) (l : List Char)
    (h : ∀ c, l.head? = some c → p c = false) : l.dropWhile p = l := by
  cases l with
  | nil => rfl
  | cons x rest =>
    rw [List.dropWhile_cons, if_neg (by rw [h x List.head?_cons]; simp)]

theorem head?_dropWhile_not (p : Char → Bool) :
    ∀ (l : List Char) (c : Char), (l.dropWhile p).head? = some c →
      p c = false := by
  intro l
  induction l with
  | nil => intro c h; simp at h
  | cons x rest ih =>
    intro c h
    rw [List.dropWhile_cons] at h
    by_cases hx : p x = true
    · rw [if_pos hx] at h
      exact ih c h
    · rw [if_neg hx] at h
      simp only [List.head?_cons, Option.some.injEq] at h
      exact h ▸ Bool.not_eq_true _ ▸ hx

theorem suffix_getLast? {l₁ l₂ : List Char} (h : l₁ <:+ l₂)
    (hne : l₁ ≠ []) : l₁.getLast? = l₂.getLast? := by
  obtain ⟨pre, rfl⟩ := h
  rw [List.getLast?_append]
  rcases hl : l₁.getLast? with _ | y
  · exact absurd (List.getLast?_eq_none_iff.mp hl) hne
  · rfl

theorem isPrefix_head? {l₁ l₂ : List Char} (h : l₁ <+: l₂)
    (hne : l₁ ≠ []) : l₁.head? = l₂.head? := by
  obtain ⟨post, rfl⟩ := h
  rw [List.head?_append]
  rcases hl : l₁.head? with _ | y
  · exact absurd (List.head?_eq_none_iff.mp hl) hne
  · rfl

theorem colonSpace_false {c : Char} (h : isColonSpace c = false) :
    isPySpaceChar c = false := by
  unfold isColonSpace at h
  exact (Bool.or_eq_false_iff.mp h).2

theorem stripLeadingToken_suffix (l : List Char) :
    stripLeadingToken l <:+ l := by
  unfold stripLeadingToken
  rcases hf : kwTokens.find? (fun kw => kw.isPrefixOf l) with _ | kw
  · simp only [hf]
    exact List.suffix_refl l
  · simp only [hf]
    exact (List.dropWhile_suffix _).trans (List.drop_suffix _ _)

theorem stripTrailingToken_prefix (l : List Char) :
    stripTrailingToken l <+: l := by
  unfold stripTrailingToken
  rcases hf : kwTokens.find? (fun kw => kw.isSuffixOf l) with _ | kw
  · simp only [hf]
    exact List.prefix_refl l
  · simp only [hf]
    refine List.IsPrefix.trans ?_
      (List.take_prefix (l.length - kw.length) l)
    obtain ⟨t, ht⟩ : ((l.take (l.length - kw.length)).reverse.dropWhile
        isColonSpace) <:+ (l.take (l.length - kw.length)).reverse :=
      List.dropWhile_suffix _
    refine ⟨t.reverse, ?_⟩
    rw [← List.reverse_append, ht, List.reverse_reverse]

theorem stripLeadingToken_head (l : List Char)
    (hl : ∀ c, l.head? = some c → isPySpaceChar c = false) :
    ∀ c, (stripLeadingToken l).head? = some c → isPySpaceChar c = false := by
  unfold stripLeadingToken
  rcases hf : kwTokens.find? (fun kw => kw.isPrefixOf l) with _ | kw
  · simp only [hf]
    exact hl
  · simp only [hf]
    intro c hc
    exact colonSpace_false (head?_dropWhile_not _ _ c hc)

theorem stripTrailingToken_last (l : List Char)
    (hl : ∀ c, l.getLast? = some c → isPySpaceChar c = false) :
    ∀ c, (stripTrailingToken l).getLast? = some c →
      isPySpaceChar c = false := by
  unfold stripTrailingToken
  rcases hf : kwTokens.find? (fun kw => kw.isSuffixOf l) with _ | kw
  · simp only [hf]
    exact hl
  · simp only [hf]
    intro c hc
    rw [List.getLast?_reverse] at hc
    exact colonSpace_false (head?_dropWhile_not _ _ c hc)

theorem collapseWs_mem (l : List Char) :
    ∀ c ∈ collapseWs l, c = ' ' ∨ (c ∈ l ∧ isPySpaceChar c = false) := by
  intro c hc
  unfold collapseWs at hc
  rw [List.mem_reverse] at hc
  have hc2 := (List.dropWhile_suffix isPySpaceChar).sublist.subset hc
  rw [List.mem_reverse] at hc2
  have hc3 := (List.dropWhile_suffix isPySpaceChar).sublist.subset hc2
  exact collapseWsAux_mem l false c hc3

theorem collapseWs_chain (l : List Char) :
    (collapseWs l).Chain'
      (fun a c : Char =>
        ¬(isPySpaceChar a = true ∧ isPySpaceChar c = true)) := by
  unfold collapseWs
  have h1 := collapseWsAux_chain l false
  have h2 := h1.suffix (List.dropWhile_suffix isPySpaceChar)
  have h3 : ((collapseWsAux false l).dropWhile
      isPySpaceChar).reverse.Chain'
      (fun a c : Char =>
        ¬(isPySpaceChar a = true ∧ isPySpaceChar c = true)) := by
    rw [List.chain'_reverse]
    exact h2.imp (fun a b h hab => h ⟨hab.2, hab.1⟩)
  have h4 := h3.suffix (List.dropWhile_suffix isPySpaceChar)
  rw [List.chain'_reverse]
  exact h4.imp (fun a b h hab => h ⟨hab.2, hab.1⟩)

theorem collapseWs_head (l : List Char) :
    ∀ c, (collapseWs l).head? = some c → isPySpaceChar c = false := by
  intro c hc
  unfold collapseWs at hc
  rw [List.head?_reverse] at hc
  have hne : ((collapseWsAux false l).dropWhile
      isPySpaceChar).reverse.dropWhile isPySpaceChar ≠ [] := by
    intro h
    rw [h] at hc
    simp at hc
  rw [suffix_getLast? (List.dropWhile_suffix isPySpaceChar) hne,
    List.getLast?_reverse] at hc
  exact head?_dropWhile_not _ _ c hc

theorem collapseWs_last (l : List Char) :
    ∀ c, (collapseWs l).getLast? = some c → isPySpaceChar c = false := by
  intro c hc
  unfold collapseWs at hc
  rw [List.getLast?_reverse] at hc
  exact head?_dropWhile_not _ _ c hc

theorem normalize_shape (x : String) :
    (∀ c ∈ (normalize_alert_name x).data, Char.toLower c = c ∧
      keepChar c = true ∧ (isPySpaceChar c = true → c = ' ')) ∧
    (normalize_alert_name x).data.Chain'
      (fun a c : Char =>
        ¬(isPySpaceChar a = true ∧ isPySpaceChar c = true)) ∧
    (∀ c, (normalize_alert_name x).data.head? = some c →
      isPySpaceChar c = false) ∧
    (∀ c, (normalize_alert_name x).data.getLast? = some c →
      isPySpaceChar c = false) := by
  by_cases hx : x = ""
  · rw [hx]
    refine ⟨?_, ?_, ?_, ?_⟩ <;> simp [normalize_alert_name]
  · have hnx : (normalize_alert_name x).data =
        stripTrailingToken (stripLeadingToken (collapseWs
          ((x.data.map Char.toLower).filter keepChar))) := by
      unfold normalize_alert_name
      rw [if_neg hx]
    rw [hnx]
    have hslsuffix := stripLeadingToken_suffix
      (collapseWs ((x.data.map Char.toLower).filter keepChar))
    have hstpre := stripTrailingToken_prefix
      (stripLeadingToken (collapseWs
        ((x.data.map Char.toLower).filter keepChar)))
    have hmem : ∀ c ∈ stripTrailingToken (stripLeadingToken (collapseWs
        ((x.data.map Char.toLower).filter keepChar))),
        c = ' ' ∨ (c ∈ (x.data.map Char.toLower).filter keepChar ∧
          isPySpaceChar c = false) := by
      intro c hc
      exact collapseWs_mem _ c (hslsuffix.sublist.subset
        (hstpre.sublist.subset hc))
    refine ⟨?_, ?_, ?_, ?_⟩
    · intro c hc
      rcases hmem c hc with rfl | ⟨hcl, hsp⟩
      · exact ⟨by decide, by decide, fun _ => rfl⟩
      · rcases List.mem_filter.mp hcl with ⟨hcm, hkeep⟩
        rcases List.mem_map.mp hcm with ⟨c₀, _, rfl⟩
        exact ⟨char_toLower_idem c₀, hkeep,
          fun h => absurd h (by rw [hsp]; simp)⟩
    · exact List.Chain'.prefix ((collapseWs_chain _).suffix hslsuffix)
        hstpre
    · intro c hc
      rcases hst : stripTrailingToken (stripLeadingToken (collapseWs
          ((x.data.map Char.toLower).filter keepChar))) with _ | ⟨y, rest⟩
      · rw [hst] at hc; simp at hc
      · rw [isPrefix_head? hstpre (by rw [hst]; simp)] at hc
        exact stripLeadingToken_head _ (collapseWs_head _) c hc
    · intro c hc
      refine stripTrailingToken_last _ ?_ c hc
      intro y hy
      rcases hsl : stripLeadingToken (collapseWs
          ((x.data.map Char.toLower).filter keepChar)) with _ | ⟨z, rest⟩
      · rw [hsl] at hy; simp at hy
      · rw [suffix_getLast? hslsuffix (by rw [hsl]; simp)] at hy
        exact collapseWs_last _ y hy

theorem collapseWs_eq_self (l : List Char)
    (hch : l.Chain' (fun a c : Char =>
      ¬(isPySpaceChar a = true ∧ isPySpaceChar c = true)))
    (hsp : ∀ c ∈ l, isPySpaceChar c = true → c = ' ')
    (hhd : ∀ c, l.head? = some c → isPySpaceChar c = false)
    (hlast : ∀ c, l.getLast? = some c → isPySpaceChar c = false) :
    collapseWs l = l := by
  have h1 : ∀ c, l.reverse.head? = some c → isPySpaceChar c = false := by
    intro c hc
    rw [List.head?_reverse] at hc
    exact hlast c hc
  unfold collapseWs
  rw [collapseWsAux_eq_self l false hch hsp
      (fun h => absurd h Bool.false_ne_true),
    dropWhile_eq_self_of_head _ _ hhd,
    dropWhile_eq_self_of_head _ _ h1, List.reverse_reverse]

theorem stripLeadingToken_eq_self {l : List Char}
    (h : ∀ kw ∈ kwTokens, kw.isPrefixOf l = false) :
    stripLeadingToken l = l := by
  unfold stripLeadingToken
  rw [List.find?_eq_none.mpr (fun kw hkw => by simp [h kw hkw])]

theorem stripTrailingToken_eq_self {l : List Char}
    (h : ∀ kw ∈ kwTokens, kw.isSuffixOf l = false) :
    stripTrailingToken l = l := by
  unfold stripTrailingToken
  rw [List.find?_eq_none.mpr (fun kw hkw => by simp [h kw hkw])]

/-! ## Lemmas about the reconciliation pass -/

namespace AlertService

theorem updTsLastOccurred_preserves (a : Alert) (info : JsmStatusInfo) :
    (updTsLastOccurred a info).jsm_alert_id = a.jsm_alert_id ∧
    (updTsLastOccurred a info).match_type = a.match_type ∧
    (updTsLastOccurred a info).match_confidence = a.match_confidence := by
  unfold updTsLastOccurred
  split
  · exact ⟨rfl, rfl, rfl⟩
  · split <;> exact ⟨rfl, rfl, rfl⟩

theorem updTsUpdated_preserves (a : Alert) (info : JsmStatusInfo) :
    (updTsUpdated a info).jsm_alert_id = a.jsm_alert_id ∧
    (updTsUpdated a info).match_type = a.match_type ∧
    (updTsUpdated a info).match_confidence = a.match_confidence := by
  unfold updTsUpdated
  split
  · exact updTsLastOccurred_preserves a info
  · split
    · exact ⟨rfl, rfl, rfl⟩
    · exact updTsLastOccurred_preserves _ info

theorem updTsCreated_preserves (a : Alert) (info : JsmStatusInfo) :
    (updTsCreated a info).jsm_alert_id = a.jsm_alert_id ∧
    (updTsCreated a info).match_type = a.match_type ∧
    (updTsCreated a info).match_confidence = a.match_confidence := by
  unfold updTsCreated
  split
  · exact updTsUpdated_preserves a info
  · split
    · exact ⟨rfl, rfl, rfl⟩
    · exact updTsUpdated_preserves _ info

theorem update_jsm_fields_match_fields (now : PyDateTime) (a : Alert)
    (j : JsmAlert) (mi : MatchMeta) :
    (update_jsm_fields now a j mi).jsm_alert_id =
      some (JSMService.get_alert_status_info j).id ∧
    (update_jsm_fields now a j mi).match_type = some mi.match_type ∧
    (update_jsm_fields now a j mi).match_confidence =
      some mi.match_confidence := by
  unfold update_jsm_fields
  dsimp only
  have h := updTsCreated_preserves
    { a with
      jsm_alert_id := some (JSMService.get_alert_status_info j).id
      jsm_tiny_id := some (JSMService.get_alert_status_info j).tiny_id
      jsm_status := some (JSMService.get_alert_status_info j).status
      jsm_acknowledged := (JSMService.get_alert_status_info j).acknowledged
      jsm_owner := (JSMService.get_alert_status_info j).owner
      jsm_priority := (JSMService.get_alert_status_info j).priority
      jsm_alias := (JSMService.get_alert_status_info j).alias
      jsm_integration_name :=
        (JSMService.get_alert_status_info j).integration_name
      jsm_source := (JSMService.get_alert_status_info j).source
      jsm_count := (JSMService.get_alert_status_info j).count
      jsm_tags := (JSMService.get_alert_status_info j).tags
      match_type := some mi.match_type
      match_confidence := some mi.match_confidence }
    (JSMService.get_alert_status_info j)
  split_ifs <;> exact ⟨h.1, h.2.1, h.2.2⟩

theorem updateFirst_preserve {Q : Alert → Prop} (p : Alert → Bool)
    (f : Alert → Alert) :
    ∀ db : List Alert, (∀ a ∈ db, Q a → p a = true → Q (f a)) →
      (∃ a ∈ db, Q a) → ∃ b ∈ updateFirst p f db, Q b := by
  intro db
  induction db with
  | nil => intro _ h; simp at h
  | cons a rest ih =>
    intro hstable hP
    rw [updateFirst]
    by_cases hp : p a = true
    · rw [if_pos hp]
      rcases hP with ⟨b, hb, hQ⟩
      rcases List.mem_cons.mp hb with rfl | hbr
      · exact ⟨f b, List.mem_cons_self _ _,
          hstable b (List.mem_cons_self _ _) hQ hp⟩
      · exact ⟨b, List.mem_cons_of_mem _ hbr, hQ⟩
    · rw [if_neg hp]
      rcases hP with ⟨b, hb, hQ⟩
      rcases List.mem_cons.mp hb with rfl | hbr
      · exact ⟨b, List.mem_cons_self _ _, hQ⟩
      · obtain ⟨c, hc, hQc⟩ :=
          ih (fun x hx => hstable x (List.mem_cons_of_mem _ hx)) ⟨b, hbr, hQ⟩
        exact ⟨c, List.mem_cons_of_mem _ hc, hQc⟩

theorem updateFirst_creates {Q : Alert → Prop} (p : Alert → Bool)
    (f : Alert → Alert) :
    ∀ db : List Alert, (∀ a, p a = true → Q (f a)) →
      (∃ a ∈ db, p a = true) → ∃ b ∈ updateFirst p f db, Q b := by
  intro db
  induction db with
  | nil => intro _ h; simp at h
  | cons a rest ih =>
    intro hQ hP
    rw [updateFirst]
    by_cases hp : p a = true
    · rw [if_pos hp]
      exact ⟨f a, List.mem_cons_self _ _, hQ a hp⟩
    · rw [if_neg hp]
      rcases hP with ⟨b, hb, hpb⟩
      rcases List.mem_cons.mp hb with rfl | hbr
      · exact absurd hpb hp
      · obtain ⟨c, hc, hQc⟩ := ih hQ ⟨b, hbr, hpb⟩
        exact ⟨c, List.mem_cons_of_mem _ hc, hQc⟩

theorem create_preserves (extractName : JsmAlert → Option String)
    (now : PyDateTime) (db : List Alert) (j : JsmAlert) {Q : Alert → Prop}
    (hP : ∃ a ∈ db, Q a) :
    ∃ a ∈ create_jsm_only_alert extractName now db j, Q a := by
  obtain ⟨a, ha, hQ⟩ := hP
  unfold create_jsm_only_alert
  split_ifs
  · exact ⟨a, ha, hQ⟩
  · exact ⟨a, List.mem_append_left _ ha, hQ⟩

/-- The invariant carried through the unmatched-JSM loop: a record with
`jsm_alert_id = i`, `match_type = 'jsm_only'`, confidence `0` stays present
(updates re-establish it, creations only append), assuming each remaining
JSM alert's nested-data id agrees with its top-level id. -/
theorem process_unmatched_preserves
    (extractName : JsmAlert → Option String) (now : PyDateTime)
    (processed : List String) (i : String) :
    ∀ (jsms : List JsmAlert) (db : List Alert),
      (∀ j' ∈ jsms,
        (JSMService.get_alert_status_info j').id = safe_str j'.top.id) →
      (∃ a ∈ db, a.jsm_alert_id = some i ∧ a.match_type = some "jsm_only" ∧
        a.match_confidence = some 0) →
      ∃ a ∈ process_unmatched_jsm extractName now processed jsms db,
        a.jsm_alert_id = some i ∧ a.match_type = some "jsm_only" ∧
          a.match_confidence = some 0 := by
  intro jsms
  induction jsms with
  | nil => intro db _ hP; exact hP
  | cons j' rest ih =>
    intro db hagree hP
    have hrest : ∀ x ∈ rest,
        (JSMService.get_alert_status_info x).id = safe_str x.top.id :=
      fun x hx => hagree x (List.mem_cons_of_mem _ hx)
    rw [process_unmatched_jsm]
    by_cases hcond : truthyStr j'.top.id = true ∧
        j'.top.id.getD "" ∉ processed
    · rw [if_pos hcond]
      rcases hfind : db.find?
          (fun a => a.jsm_alert_id == some (j'.top.id.getD "")) with
        _ | a₀ <;> simp only [hfind]
      · exact ih _ hrest (create_preserves extractName now db j' hP)
      · refine ih _ hrest (updateFirst_preserve _ _ db ?_ hP)
        intro a _ hQ hp
        simp only [beq_iff_eq] at hp
        have hii : j'.top.id.getD "" = i := by
          have := hQ.1.symm.trans hp
          exact (Option.some.injEq _ _ ▸ this).symm
        have hu := update_jsm_fields_match_fields now a j' ⟨"jsm_only", 0⟩
        refine ⟨?_, hu.2.1, hu.2.2⟩
        rw [hu.1, hagree j' (List.mem_cons_self _ _)]
        unfold safe_str
        rw [hii]
    · rw [if_neg hcond]
      exact ih _ hrest hP

end AlertService

/-! ## Claim theorems for the reconciliation pass and timestamp parsing -/

/-- C6: when `_update_existing_alert` runs with no JSM match for the cycle,
the human-action fields `acknowledged_by`, `acknowledged_at`, `resolved_by`
and `resolved_at` of the record are left exactly as they were — a human-set
acknowledgement survives a no-match sync. -/
theorem C6_sticky_human_fields (now : PyDateTime) (alert : Alert)
    (grafana_data : GrafanaData) (match_info : MatchMeta) :
    (AlertService.update_existing_alert now alert grafana_data none
        match_info).acknowledged_by = alert.acknowledged_by ∧
    (AlertService.update_existing_alert now alert grafana_data none
        match_info).acknowledged_at = alert.acknowledged_at ∧
    (AlertService.update_existing_alert now alert grafana_data none
        match_info).resolved_by = alert.resolved_by ∧
    (AlertService.update_existing_alert now alert grafana_data none
        match_info).resolved_at = alert.resolved_at :=
  ⟨rfl, rfl, rfl, rfl⟩

/-- C8 (amended): on a lost match, `_update_existing_alert` clears only
`jsm_alert_id` and `jsm_status` and sets `match_type = 'none'`,
`match_confidence = 0`; the remaining incident-side snapshot fields
(tiny id, owner, acknowledged flag, priority, alias, integration name,
source, count, tags, JSM timestamps) keep their previous values. -/
theorem C8_no_match_clears_only_id_and_status (now : PyDateTime)
    (alert : Alert) (grafana_data : GrafanaData) (match_info : MatchMeta) :
    (AlertService.update_existing_alert now alert grafana_data none
        match_info).jsm_alert_id = none ∧
    (AlertService.update_existing_alert now alert grafana_data none
        match_info).jsm_status = none ∧
    (AlertService.update_existing_alert now alert grafana_data none
        match_info).match_type = some "none" ∧
    (AlertService.update_existing_alert now alert grafana_data none
        match_info).match_confidence = some 0 ∧
    (AlertService.update_existing_alert now alert grafana_data none
        match_info).jsm_tiny_id = alert.jsm_tiny_id ∧
    (AlertService.update_existing_alert now alert grafana_data none
        match_info).jsm_owner = alert.jsm_owner ∧
    (AlertService.update_existing_alert now alert grafana_data none
        match_info).jsm_acknowledged = alert.jsm_acknowledged ∧
    (AlertService.update_existing_alert now alert grafana_data none
        match_info).jsm_priority = alert.jsm_priority ∧
    (AlertService.update_existing_alert now alert grafana_data none
        match_info).jsm_alias = alert.jsm_alias ∧
    (AlertService.update_existing_alert now alert grafana_data none
        match_info).jsm_integration_name = alert.jsm_integration_name ∧
    (AlertService.update_existing_alert now alert grafana_data none
        match_info).jsm_source = alert.jsm_source ∧
    (AlertService.update_existing_alert now alert grafana_data none
        match_info).jsm_count = alert.jsm_count ∧
    (AlertService.update_existing_alert now alert grafana_data none
        match_info).jsm_tags = alert.jsm_tags ∧
    (AlertService.update_existing_alert now alert grafana_data none
        match_info).jsm_created_at = alert.jsm_created_at ∧
    (AlertService.update_existing_alert now alert grafana_data none
        match_info).jsm_updated_at = alert.jsm_updated_at ∧
    (AlertService.update_existing_alert now alert grafana_data none
        match_info).jsm_last_occurred_at = alert.jsm_last_occurred_at :=
  ⟨rfl, rfl, rfl, rfl, rfl, rfl, rfl, rfl, rfl, rfl, rfl, rfl, rfl, rfl,
    rfl, rfl⟩

/-- C8 counterexample: for a record with a stale JSM snapshot, the no-match
update leaves `jsm_tiny_id`, `jsm_owner`, `jsm_acknowledged`, `jsm_priority`
and `jsm_tags` populated — the incident-side snapshot does not become
empty as the claim states. -/
theorem C8_counterexample :
    (AlertService.update_existing_alert sampleNow staleAlert
        GrafanaData.empty none ⟨"none", 0⟩).jsm_tiny_id = some "1234" ∧
    (AlertService.update_existing_alert sampleNow staleAlert
        GrafanaData.empty none ⟨"none", 0⟩).jsm_owner = some "alice" ∧
    (AlertService.update_existing_alert sampleNow staleAlert
        GrafanaData.empty none ⟨"none", 0⟩).jsm_acknowledged = true ∧
    (AlertService.update_existing_alert sampleNow staleAlert
        GrafanaData.empty none ⟨"none", 0⟩).jsm_priority = some "P1" ∧
    (AlertService.update_existing_alert sampleNow staleAlert
        GrafanaData.empty none ⟨"none", 0⟩).jsm_tags = ["team:core"] :=
  ⟨rfl, rfl, rfl, rfl, rfl⟩

/-- C7 (amended): every JSM alert of the cycle with a non-empty top-level
id that was not processed as a match is represented after the unmatched-JSM
pass by a persisted record carrying that id with `match_type = 'jsm_only'`
and confidence `0` — a fresh `jsm-only-<id>` record is appended when no
record carries the id, otherwise the first record carrying it is refreshed
in place. This assumes each JSM alert's nested `data` id agrees with its
top-level id (the shape the JSM API returns); alerts with a missing or
empty id are skipped. -/
theorem C7_incident_only_surfacing
    (extractName : JsmAlert → Option String) (now : PyDateTime)
    (processed : List String) (jsms : List JsmAlert) (db : List Alert)
    (j : JsmAlert) (i : String)
    (hmem : j ∈ jsms)
    (hid : j.top.id = some i)
    (hne : i ≠ "")
    (hproc : i ∉ processed)
    (hagree : ∀ j' ∈ jsms,
      (JSMService.get_alert_status_info j').id = safe_str j'.top.id) :
    ∃ a ∈ AlertService.process_unmatched_jsm extractName now processed jsms
        db,
      a.jsm_alert_id = some i ∧ a.match_type = some "jsm_only" ∧
        a.match_confidence = some 0 := by
  induction jsms generalizing db with
  | nil => exact absurd hmem (List.not_mem_nil _)
  | cons j' rest ih =>
    have hrest : ∀ x ∈ rest,
        (JSMService.get_alert_status_info x).id = safe_str x.top.id :=
      fun x hx => hagree x (List.mem_cons_of_mem _ hx)
    rcases List.mem_cons.mp hmem with rfl | hmem'
    · -- the target alert is processed by this step
      have hidD : j.top.id.getD "" = i := by rw [hid]; rfl
      have htruthy : truthyStr j.top.id = true := by
        unfold truthyStr
        rw [hid]
        simpa using hne
      have hcond : truthyStr j.top.id = true ∧
          j.top.id.getD "" ∉ processed := ⟨htruthy, hidD ▸ hproc⟩
      rw [AlertService.process_unmatched_jsm, if_pos hcond]
      have hQj : ∀ mi : MatchMeta, ∀ a : Alert,
          (AlertService.update_jsm_fields now a j mi).jsm_alert_id =
            some i := by
        intro mi a
        rw [(AlertService.update_jsm_fields_match_fields now a j mi).1,
          hagree j (List.mem_cons_self _ _)]
        unfold safe_str
        rw [hidD]
      rcases hfind : db.find?
          (fun a => a.jsm_alert_id == some (j.top.id.getD "")) with
        _ | a₀ <;> simp only [hfind]
      · -- no existing record: a jsm-only record is created and persists
        refine AlertService.process_unmatched_preserves extractName now
          processed i rest _ hrest ?_
        unfold AlertService.create_jsm_only_alert
        rw [if_neg (by simp [htruthy])]
        exact ⟨_, List.mem_append_right _ (List.mem_singleton_self _),
          hQj ⟨"jsm_only", 0⟩ _,
          (AlertService.update_jsm_fields_match_fields now _ j
            ⟨"jsm_only", 0⟩).2.1,
          (AlertService.update_jsm_fields_match_fields now _ j
            ⟨"jsm_only", 0⟩).2.2⟩
      · -- an existing record carries the id: it is refreshed in place
        refine AlertService.process_unmatched_preserves extractName now
          processed i rest _ hrest ?_
        have hmem₀ := List.mem_of_find?_eq_some hfind
        have hpa := List.find?_some hfind
        refine AlertService.updateFirst_creates _ _ db ?_ ⟨a₀, hmem₀, hpa⟩
        intro a _
        exact ⟨hQj ⟨"jsm_only", 0⟩ a,
          (AlertService.update_jsm_fields_match_fields now a j
            ⟨"jsm_only", 0⟩).2.1,
          (AlertService.update_jsm_fields_match_fields now a j
            ⟨"jsm_only", 0⟩).2.2⟩
    · -- the target alert sits deeper in the batch
      rw [AlertService.process_unmatched_jsm]
      by_cases hcond : truthyStr j'.top.id = true ∧
          j'.top.id.getD "" ∉ processed
      · rw [if_pos hcond]
        rcases hfind : db.find?
            (fun a => a.jsm_alert_id == some (j'.top.id.getD "")) with
          _ | a₀ <;> simp only [hfind]
        · exact ih _ hmem' hrest
        · exact ih _ hmem' hrest
      · rw [if_neg hcond]
        exact ih _ hmem' hrest

/-- Witness for C7: a single unclaimed JSM alert with id `"J1"` against an
empty store ends up represented by a `jsm_only` record carrying that id. -/
theorem C7_incident_only_surfacing_witness :
    ∃ a ∈ AlertService.process_unmatched_jsm (fun _ => none) sampleNow []
        [sampleJsm] [],
      a.jsm_alert_id = some "J1" ∧ a.match_type = some "jsm_only" ∧
        a.match_confidence = some 0 :=
  C7_incident_only_surfacing (fun _ => none) sampleNow [] [sampleJsm] []
    sampleJsm "J1" (List.mem_singleton_self _) rfl (by decide)
    (List.not_mem_nil _)
    (by intro j' hj'; rw [List.mem_singleton.mp hj']; rfl)

/-- C7 counterexample: a JSM alert with no id at all (but a real payload) is
silently dropped by the unmatched-JSM pass — no record is created for it,
refuting the claim that no unclaimed incident record is ever dropped. -/
theorem C7_counterexample :
    AlertService.process_unmatched_jsm (fun _ => some "orphan incident")
      sampleNow [] [jsmNoId] [] = [] := rfl

/-- C9 (amended): the ingest-side parsers (`GrafanaService._parse_datetime`,
`PrometheusService._parse_datetime`) replace `'Z'` with `'+00:00'` and fall
back to the current time on missing input or parse failure, the Prometheus
variant additionally truncating fractional digits beyond 6; the
matching-service parsers (`_parse_grafana_timestamp`,
`_parse_jsm_timestamp`) rewrite only a trailing `'Z'` and return `None`
(not the current time) on missing input or parse failure. -/
theorem C9_timestamp_parsing_amended :
    (∀ now : PyDateTime, GrafanaService.parse_datetime now none = now) ∧
    (∀ now : PyDateTime, GrafanaService.parse_datetime now (some "") =
      now) ∧
    (∀ now : PyDateTime,
      GrafanaService.parse_datetime now (some "not-a-timestamp") = now) ∧
    (∀ now : PyDateTime,
      GrafanaService.parse_datetime now (some "2025-06-26T10:00:00Z") =
        ⟨2025, 6, 26, 10, 0, 0, 0, some 0⟩) ∧
    AlertMatchingService.parse_grafana_timestamp grafanaGoodTs =
      some ⟨2025, 6, 26, 10, 0, 0, 0, some 0⟩ ∧
    AlertMatchingService.parse_grafana_timestamp grafanaBadTs = none ∧
    AlertMatchingService.parse_grafana_timestamp GrafanaData.empty = none ∧
    AlertMatchingService.parse_jsm_timestamp jsmBadTs = none ∧
    PrometheusService.preprocessNanos "2025-01-01T00:00:00.123456789Z" =
      "2025-01-01T00:00:00.123456Z" ∧
    (∀ now : PyDateTime,
      PrometheusService.parse_datetime now
          (some "2025-01-01T00:00:00.123456789Z") =
        ⟨2025, 1, 1, 0, 0, 0, 123456, some 0⟩) :=
  ⟨fun _ => rfl, fun _ => rfl, fun _ => rfl, fun _ => rfl, rfl, rfl, rfl,
    rfl, rfl, fun _ => rfl⟩

/-- C9 counterexample: the matching-service timestamp extraction cited by
the claim returns no timestamp at all on a parse failure — it does not fall
back to the current time. -/
theorem C9_counterexample :
    AlertMatchingService.parse_grafana_timestamp grafanaBadTs = none ∧
    AlertMatchingService.parse_jsm_timestamp jsmBadTs = none :=
  ⟨rfl, rfl⟩

/-- C4 counterexample: `_normalize_alert_name` is not idempotent. The
anchored prefix/suffix patterns strip at most one `alert|rule|notification`
token per application, so on `"alert rule foo"` the first application
yields `"rule foo"` and the second strips again, yielding `"foo"`. -/
theorem C4_counterexample :
    normalize_alert_name (normalize_alert_name "alert rule foo") ≠
      normalize_alert_name "alert rule foo" := by
  decide

/-- C4 (amended): `_normalize_alert_name` is idempotent on every input
whose normal form does not itself begin or end with one of the tokens
`alert`, `rule`, `notification`: the normal form is already lowercase,
contains only `[\w\s-]` characters, has no leading, trailing or doubled
whitespace (every whitespace character is a single interior `' '`), so a
second application can change it only through the anchored token
strippers. -/
theorem C4_normalize_conditional_idempotent (x : String)
    (hpre : ∀ kw ∈ kwTokens,
      kw.isPrefixOf (normalize_alert_name x).data = false)
    (hsuf : ∀ kw ∈ kwTokens,
      kw.isSuffixOf (normalize_alert_name x).data = false) :
    normalize_alert_name (normalize_alert_name x) =
      normalize_alert_name x := by
  obtain ⟨h1, h2, h3, h4⟩ := normalize_shape x
  by_cases hy : normalize_alert_name x = ""
  · rw [hy]
    rfl
  · conv_lhs => rw [normalize_alert_name]
    rw [if_neg hy]
    have hmap : (normalize_alert_name x).data.map Char.toLower =
        (normalize_alert_name x).data.map id :=
      List.map_congr_left (fun c hc => (h1 c hc).1)
    rw [hmap, List.map_id,
      List.filter_eq_self.mpr (fun c hc => (h1 c hc).2.1),
      collapseWs_eq_self _ h2 (fun c hc => (h1 c hc).2.2) h3 h4,
      stripLeadingToken_eq_self hpre, stripTrailingToken_eq_self hsuf]

theorem C4_normalize_conditional_idempotent_witness :
    (∀ kw ∈ kwTokens,
      kw.isPrefixOf (normalize_alert_name "Alert: CPU High").data =
        false) ∧
    (∀ kw ∈ kwTokens,
      kw.isSuffixOf (normalize_alert_name "Alert: CPU High").data =
        false) ∧
    normalize_alert_name (normalize_alert_name "Alert: CPU High") =
      normalize_alert_name "Alert: CPU High" :=
  ⟨by decide, by decide,
    C4_normalize_conditional_idempotent "Alert: CPU High" (by decide)
      (by decide)⟩

end AlertManager
